import Mathlib

/-!
# OPeNDAP raster driver (frmts/dods/dodsdataset.cpp)

A shallow embedding of the methods of `DODSDataset` (the layer-specification
parser, the validation of the layer specification, the description of the
variable, the geo-referencing, the constraint builder, `Open`) and of the
reading method `IRasterIO` of `DODSRasterBand`, followed by the properties
established about them.

Conventions of the embedding.

* A `std::string` is the list of its characters (`Str`).
* `string::npos` is `none`; a position is a natural number.
* A C++ `int` is an `Int`.  Signed overflow is undefined behaviour in C++, so
  the model describes the executions in which no intermediate value leaves the
  range of `int`.
* A function that can throw returns `Except Exn _`; the constructor of `Exn`
  records the class of the exception and the `Msg` records which `throw`
  statement raised it, together with the run-time values put in its text.
* The `while` loop of `parse_input` is run with fuel; `none` means that the fuel
  ran out before the loop condition became false.
* A `double` is a rational number.  The methods that compute on `double` take
  the rounding `fl` of an arithmetic operation as a parameter: `exact` is exact
  arithmetic, `round64` is IEEE 754 binary64 arithmetic.
* What the DAP client library, the C library and the spatial-reference library
  answer is a parameter of the methods that call them (`AISConnect`, `DDS`,
  `AttrTable`, `Library`).
-/

namespace DODS

/-- Characters of a `std::string`. -/
abbrev Str := List Char

/-- Worker of `find`: scans the remaining characters, `i` being the index of
the head of the list in the whole string. -/
def findAux (c : Char) : List Char → Nat → Option Nat
  | [], _ => none
  | x :: xs, i => if x = c then some i else findAux c xs (i + 1)

/-- The call `s.find(c, pos)` of `std::string`: index of the first occurrence of
`c` at an index `≥ pos`, or `none` for `string::npos`. -/
def find (s : Str) (c : Char) (pos : Nat) : Option Nat :=
  findAux c (s.drop pos) pos

/-- The call `s.find(c, pos)` when `pos` may itself be `string::npos`: `npos` is
not smaller than `size()`, so nothing is found. -/
def findFrom (s : Str) (c : Char) : Option Nat → Option Nat
  | none => none
  | some pos => find s c pos

/-- The call `s.substr(pos, n)`: at most `n` characters starting at `pos`;
`none` stands for the `std::out_of_range` thrown when `pos > size()`. -/
def substr (s : Str) (pos n : Nat) : Option Str :=
  if pos ≤ s.length then some ((s.drop pos).take n) else none

/-- The call `s.substr(pos)`: everything from `pos` on; `none` stands for the
`std::out_of_range` thrown when `pos > size()`. -/
def substrFrom (s : Str) (pos : Nat) : Option Str :=
  if pos ≤ s.length then some (s.drop pos) else none

/-- The enumeration `dim_spec::type` as used by the switch statements of the
source. -/
inductive dim_type where
  | unknown
  | index
  | range
  | lat
  | lon
  deriving DecidableEq, Repr

/-- Modelled from the spec: the declaration of `dim_spec` is in dodsdataset.h,
which is not part of the sources at hand.  The three members are the ones the
source reads (`i->type`, `i->start`, `i->stop`); an Index specifier keeps its
value in `start`. -/
structure dim_spec where
  type : dim_type
  start : Int
  stop : Int
  deriving DecidableEq, Repr

/-- The pixel types `get_var_info` can assign to `d_eDatatype`, and the value
`GDT_Unknown` of a dataset whose type has not been set. -/
inductive GDALDataType where
  | GDT_Unknown
  | GDT_Byte
  | GDT_Int16
  | GDT_UInt16
  | GDT_Int32
  | GDT_UInt32
  | GDT_Float32
  | GDT_Float64
  deriving DecidableEq, Repr

/-- The data members of `DODSDataset` (and the raster sizes it inherits from
`GDALDataset`) that the embedded methods read or write.  The `double` members
take rational values. -/
structure DODSDataset where
  d_oURL : Str
  d_oVarName : Str
  d_oBandExpr : Str
  d_oBandSpec : List dim_spec
  d_iVarRank : Int
  d_iNumBands : Int
  nRasterXSize : Int
  nRasterYSize : Int
  d_eDatatype : GDALDataType
  d_dfLLLon : ℚ
  d_dfLLLat : ℚ
  d_dfURLon : ℚ
  d_dfURLat : ℚ
  d_oWKT : Str

/-- The dataset made by `new DODSDataset()`: the strings and the vector of
dimension specifiers are empty, as default-constructed members are.  The
numeric members are set to zero; no property below depends on their value. -/
def DODSDataset.fresh : DODSDataset :=
  ⟨[], [], [], [], 0, 0, 0, 0, GDALDataType.GDT_Unknown, 0, 0, 0, 0, []⟩

/-- The text of an exception: one constructor per `throw` statement of the
source, carrying the run-time values concatenated into the message. -/
inductive Msg where
  /-- Text "Failed to find '?' delimiter in the DAP server/layer-specification." -/
  | no_question_mark (filename : Str)
  /-- Text "Failed to find a DAP server URL in the DAP server/layer-specification." -/
  | no_url (filename : Str)
  /-- Text "Failed to find '[' delimiter in the DAP server/layer-specification." -/
  | no_bracket (filename : Str)
  /-- Text "Failed to find a variable name in the DAP server/layer-specification." -/
  | no_var_name (filename : Str)
  /-- Text "Failed to find a Band Specification in the DAP server/layer-specification." -/
  | no_band_spec (filename : Str)
  /-- Text "The Layer Specification has not been parsed but
  DODSDataset::verify_layer_spec() was called!" -/
  | not_parsed
  /-- Text "In the layer specification: ... at least one of the bracket
  sub-expressions could not be parsed." -/
  | sub_expression (bandExpr : Str)
  /-- Text "Missing 'lat' in layer specification: ..." -/
  | missing_lat (bandExpr : Str)
  /-- Text "Missing 'lon' in layer specification: ..." -/
  | missing_lon (bandExpr : Str)
  /-- Text "More than one range in layer specification: ..." -/
  | many_ranges (bandExpr : Str)
  /-- Text "Not all dimensions accounted for in '...', Given that the variable '...'
  has rank ..." -/
  | rank_mismatch (bandExpr varName : Str) (rank : Int)
  /-- Text "While processing a request for '...', band number ... The offset and/or
  size values exceed the size of the layer." -/
  | exceeds_layer (varName : Str) (band : Int)
  /-- Text "The URL does not start with 'http' or 'https,' I won't try connecting." -/
  | not_http
  /-- Text "I connected to the URL but could not get a DAP 3.x version string from
  the server" -/
  | no_dap3_version
  /-- Text "The variable ... could not be found in the data source." -/
  | variable_not_found (varName : Str)
  /-- Text "The DODS GDAL driver only supports Array and Grid variables." -/
  | not_array_or_grid
  /-- Text "The DODS GDAL driver supports only numeric data types." -/
  | not_numeric
  /-- Text "Could not find the geo-referencing information for '...' and could not
  find default geo-referencing information in the 'opendap_gdal' attribute
  container." -/
  | no_geo_container (varName : Str)
  /-- Text "While reading geo-referencing information for '...' the value for
  '...' was not found." -/
  | geo_value_not_found (varName param : Str)
  /-- Text "I could not read the variable '...' from the data source at: ..." -/
  | could_not_read (varName url : Str)
  /-- Text "Expected an Array or Grid variable!" -/
  | expected_array_or_grid
  /-- Text "Got a non-zero block offset!" -/
  | block_offset
  /-- Text of an Error raised inside the DAP client library. -/
  | library (text : Str)
  deriving DecidableEq, Repr

/-- The exceptions that leave the embedded methods: libdap's `Error`, its
subclass `InternalErr`, and the `std::out_of_range` of `substr`. -/
inductive Exn where
  | Error (msg : Msg)
  | InternalErr (msg : Msg)
  | out_of_range
  deriving DecidableEq, Repr

deriving instance DecidableEq for Except

/-- The text made of the groups `gs`, each one between brackets, with nothing
between two groups: `[g1][g2]...[gn]`. -/
def bracket_groups : List Str → Str
  | [] => []
  | g :: gs => '[' :: g ++ ']' :: bracket_groups gs

/-- The dataset after `parse_input` has assigned `d_oURL`, `d_oVarName` and
`d_oBandExpr` and its loop has left `spec` in `d_oBandSpec`; the other members
are untouched. -/
def store_locator (ds : DODSDataset) (url var expr : Str) (spec : List dim_spec) :
    DODSDataset :=
  ⟨url, var, expr, spec, ds.d_iVarRank, ds.d_iNumBands, ds.nRasterXSize, ds.nRasterYSize,
    ds.d_eDatatype, ds.d_dfLLLon, ds.d_dfLLLat, ds.d_dfURLon, ds.d_dfURLat, ds.d_oWKT⟩

/-- The `while` loop of `parse_input` (lines 198-206).  `beg` and `fin` are the
loop variables `beg` and `end`, `spec` is `d_oBandSpec`, `classify` is what a
fresh `dim_spec` becomes after `parse` has been called on the text.  In the body
`fin - beg + 1` is computed on `size_type`; `beg ≤ fin` at every iteration
(`fin` is the result of a search that starts at `beg`, see `find_ge`), so the
natural-number subtraction is exact. -/
def parse_loop (classify : Str → dim_spec) (expr : Str) :
    Nat → Option Nat → Option Nat → List dim_spec → Option (Except Exn (List dim_spec))
  | _, none, _, spec => some (.ok spec)
  | _, some _, none, spec => some (.ok spec)
  | 0, some _, some _, _ => none
  | fuel + 1, some beg, some fin, spec =>
    match substr expr beg (fin - beg + 1) with
    | none => some (.error Exn.out_of_range)
    | some text =>
      let beg2 := find expr '[' fin
      let fin2 := findFrom expr ']' beg2
      parse_loop classify expr fuel beg2 fin2 (spec ++ [classify text])

/-- The method `DODSDataset::parse_input` (lines 159-207), run on the dataset
`ds`, with `fuel` iterations allowed to the loop.  The members are assigned in
the order of the source; an exception discards the dataset.  `bracket-q_mark-1`
is computed on `size_type` with `q_mark < bracket` (the search of the bracket
starts at `q_mark+1`, see `find_ge`), so the natural-number subtraction is
exact. -/
def parse_input_fuel (fuel : Nat) (classify : Str → dim_spec) (ds : DODSDataset)
    (filename : Str) : Option (Except Exn DODSDataset) :=
  match find filename '?' 0 with
  | none => some (.error (Exn.Error (Msg.no_question_mark filename)))
  | some q_mark =>
    match substr filename 0 q_mark with
    | none => some (.error Exn.out_of_range)
    | some url =>
      if url.length = 0 then some (.error (Exn.Error (Msg.no_url filename))) else
      match find filename '[' (q_mark + 1) with
      | none => some (.error (Exn.Error (Msg.no_bracket filename)))
      | some bracket =>
        match substr filename (q_mark + 1) (bracket - q_mark - 1) with
        | none => some (.error Exn.out_of_range)
        | some var =>
          if var.length = 0 then some (.error (Exn.Error (Msg.no_var_name filename))) else
          match substrFrom filename bracket with
          | none => some (.error Exn.out_of_range)
          | some expr =>
            if expr.length = 0 then some (.error (Exn.Error (Msg.no_band_spec filename))) else
            match parse_loop classify expr fuel (some 0) (find expr ']' 0) ds.d_oBandSpec with
            | none => none
            | some (.error e) => some (.error e)
            | some (.ok spec) =>
              some (.ok (store_locator ds url var expr spec))

/-- The method `DODSDataset::parse_input` with as many loop iterations allowed
as the locator has characters, which is always enough (see
`parse_input_terminates`). -/
def parse_input (classify : Str → dim_spec) (ds : DODSDataset) (filename : Str) :
    Option (Except Exn DODSDataset) :=
  parse_input_fuel filename.length classify ds filename

/-- Modelled from the spec: the value of a non-empty string of decimal digits,
`none` when the string is empty or holds another character.  Part of the model
of `dim_spec::parse`. -/
def digits_value : Str → Option Nat
  | [] => none
  | cs => if cs.all Char.isDigit then some (cs.foldl (fun n c => 10 * n + (c.toNat - 48)) 0)
          else none

/-- Modelled from the spec: an integer of the locator grammar, decimal digits
with an optional leading minus sign.  Part of the model of `dim_spec::parse`. -/
def integer_value : Str → Option Int
  | '-' :: cs => (digits_value cs).map (fun n => - (n : Int))
  | cs => (digits_value cs).map (fun n => (n : Int))

/-- Modelled from the spec: the classification of the text inside one bracket
group, done by `dim_spec::parse` in dodsdataset.h, which is not part of the
sources at hand.  Exactly "lat" is Latitude, exactly "lon" is Longitude, a
single integer is Index(value), two integers separated by a colon are
Range(start, stop), anything else is Unknown. -/
def classify_group (g : Str) : dim_spec :=
  if g = ['l', 'a', 't'] then ⟨dim_type.lat, 0, 0⟩
  else if g = ['l', 'o', 'n'] then ⟨dim_type.lon, 0, 0⟩
  else match integer_value g with
    | some v => ⟨dim_type.index, v, v⟩
    | none =>
      match find g ':' 0 with
      | none => ⟨dim_type.unknown, 0, 0⟩
      | some colon =>
        match integer_value (g.take colon), integer_value (g.drop (colon + 1)) with
        | some a, some b => ⟨dim_type.range, a, b⟩
        | _, _ => ⟨dim_type.unknown, 0, 0⟩

/-- Modelled from the spec: `dim_spec::parse` (dodsdataset.h, not part of the
sources at hand) applied to a fresh `dim_spec`.  Its argument is the text of one
group with its brackets, as `parse_input` passes it. -/
def dim_spec.parse (text : Str) : dim_spec :=
  match text with
  | '[' :: rest =>
    if rest.getLast? = some ']' then classify_group rest.dropLast
    else ⟨dim_type.unknown, 0, 0⟩
  | _ => ⟨dim_type.unknown, 0, 0⟩

/-- The counters `lat_count`, `lon_count`, `index_count`, `range_count` of
`verify_layer_spec`. -/
structure Counts where
  lat_count : Int
  lon_count : Int
  index_count : Int
  range_count : Int
  deriving DecidableEq, Repr

/-- The `for` loop of `verify_layer_spec` (lines 249-260) over the remaining
specifiers: each one increments its counter, an Unknown one throws. -/
def count_loop (bandExpr : Str) : List dim_spec → Counts → Except Exn Counts
  | [], c => .ok c
  | i :: rest, c =>
    match i.type with
    | dim_type.lat => count_loop bandExpr rest ⟨c.lat_count + 1, c.lon_count, c.index_count, c.range_count⟩
    | dim_type.lon => count_loop bandExpr rest ⟨c.lat_count, c.lon_count + 1, c.index_count, c.range_count⟩
    | dim_type.index => count_loop bandExpr rest ⟨c.lat_count, c.lon_count, c.index_count + 1, c.range_count⟩
    | dim_type.range => count_loop bandExpr rest ⟨c.lat_count, c.lon_count, c.index_count, c.range_count + 1⟩
    | dim_type.unknown => .error (Exn.Error (Msg.sub_expression bandExpr))

/-- The method `DODSDataset::verify_layer_spec` (lines 241-280). -/
def verify_layer_spec (ds : DODSDataset) : Except Exn Unit :=
  if ds.d_oBandSpec.length = 0 then .error (Exn.InternalErr Msg.not_parsed) else
  match count_loop ds.d_oBandExpr ds.d_oBandSpec ⟨0, 0, 0, 0⟩ with
  | .error e => .error e
  | .ok c =>
    if c.lat_count ≠ 1 then .error (Exn.Error (Msg.missing_lat ds.d_oBandExpr))
    else if c.lon_count ≠ 1 then .error (Exn.Error (Msg.missing_lon ds.d_oBandExpr))
    else if c.range_count > 1 then .error (Exn.Error (Msg.many_ranges ds.d_oBandExpr))
    else if c.index_count + c.range_count + 2 ≠ ds.d_iVarRank then
      .error (Exn.Error (Msg.rank_mismatch ds.d_oBandExpr ds.d_oVarName ds.d_iVarRank))
    else .ok ()

/-- What `oss << n` appends for an `int`: its decimal digits, after a minus
sign when it is negative. -/
def int_text : Int → Str
  | Int.ofNat n => Nat.toDigits 10 n
  | Int.negSucc n => '-' :: Nat.toDigits 10 (n + 1)

/-- The `for` loop of `BuildConstraint` (lines 525-547) over the remaining
specifiers, `oss` being what the string stream holds so far. -/
def constraint_loop (bandExpr : Str) (iXOffset iYOffset iXSize iYSize iBandNum : Int) :
    List dim_spec → Str → Except Exn Str
  | [], oss => .ok oss
  | i :: rest, oss =>
    match i.type with
    | dim_type.lat =>
      constraint_loop bandExpr iXOffset iYOffset iXSize iYSize iBandNum rest
        (oss ++ ['['] ++ int_text iYOffset ++ [':'] ++ int_text (iYSize + iYOffset - 1) ++ [']'])
    | dim_type.lon =>
      constraint_loop bandExpr iXOffset iYOffset iXSize iYSize iBandNum rest
        (oss ++ ['['] ++ int_text iXOffset ++ [':'] ++ int_text (iXSize + iXOffset - 1) ++ [']'])
    | dim_type.index =>
      constraint_loop bandExpr iXOffset iYOffset iXSize iYSize iBandNum rest
        (oss ++ ['['] ++ int_text i.start ++ [']'])
    | dim_type.range =>
      constraint_loop bandExpr iXOffset iYOffset iXSize iYSize iBandNum rest
        (oss ++ ['['] ++ int_text (i.start + iBandNum - 1) ++ [']'])
    | dim_type.unknown => .error (Exn.InternalErr (Msg.sub_expression bandExpr))

/-- The method `DODSDataset::BuildConstraint` (lines 508-550): the bounds check,
then the variable name and the loop over `d_oBandSpec`. -/
def BuildConstraint (ds : DODSDataset) (iXOffset iYOffset iXSize iYSize iBandNum : Int) :
    Except Exn Str :=
  if iXOffset + iXSize - 1 > ds.nRasterXSize ∨ iYOffset + iYSize - 1 > ds.nRasterYSize then
    .error (Exn.Error (Msg.exceeds_layer ds.d_oVarName iBandNum))
  else
    constraint_loop ds.d_oBandExpr iXOffset iYOffset iXSize iYSize iBandNum
      ds.d_oBandSpec ([] ++ ds.d_oVarName)

/-- What the four non-throwing cases of the switch of `BuildConstraint` (lines
527-540) write between the brackets for the specifier `i`; the empty text for
an Unknown specifier, for which the switch writes nothing and throws. -/
def group_body (iXOffset iYOffset iXSize iYSize iBandNum : Int) (i : dim_spec) : Str :=
  match i.type with
  | dim_type.lat => int_text iYOffset ++ [':'] ++ int_text (iYSize + iYOffset - 1)
  | dim_type.lon => int_text iXOffset ++ [':'] ++ int_text (iXSize + iXOffset - 1)
  | dim_type.index => int_text i.start
  | dim_type.range => int_text (i.start + iBandNum - 1)
  | dim_type.unknown => []

/-- Number of specifiers of type `t` in a dimension-spec sequence. -/
def occurrences (t : dim_type) (spec : List dim_spec) : Nat :=
  spec.countP (fun i => decide (i.type = t))

/-- A dataset as `BuildConstraint` needs it: variable name, dimension
specifiers and raster size; the other members are those of a fresh dataset. -/
def raster_dataset (var : Str) (spec : List dim_spec) (width height : Int) : DODSDataset :=
  ⟨[], var, [], spec, 0, 0, width, height, GDALDataType.GDT_Unknown, 0, 0, 0, 0, []⟩

/-! ### The remote data source -/

/-- The values of libdap's type enumeration for the classes the source
includes. -/
inductive dods_type where
  | dods_byte_c
  | dods_int16_c
  | dods_uint16_c
  | dods_int32_c
  | dods_uint32_c
  | dods_float32_c
  | dods_float64_c
  | dods_str_c
  | dods_url_c
  | dods_array_c
  | dods_structure_c
  | dods_sequence_c
  | dods_grid_c
  deriving DecidableEq, Repr

/-- What the source asks of a libdap `Array`: the declared sizes of its
dimensions, in order (`dimensions()` is their number, `dimension_size` of the
iterator `dim_begin() + k` is the `k`-th one), and the type of its elements
(`var()->type()`). -/
structure DapArray where
  dims : List Int
  elem : dods_type
  deriving DecidableEq, Repr

/-- A variable of a DDS as the source distinguishes it: a Grid with its array,
an Array, or a variable of another type. -/
inductive BaseType where
  | grid (array_var : DapArray)
  | array (a : DapArray)
  | other (t : dods_type)
  deriving DecidableEq, Repr

/-- The lookup `dds.var(www2id(n))` of a DDS or DataDDS, `none` being the null
pointer. -/
structure DDS where
  var : Str → Option BaseType

/-- A libdap attribute table: its attributes, name and value, and its nested
containers. -/
inductive AttrTable where
  | mk (attrs : List (Str × Str)) (containers : List (Str × AttrTable))

/-- The attributes of a table, in the order of `attr_begin()` to `attr_end()`. -/
def AttrTable.attrs : AttrTable → List (Str × Str)
  | AttrTable.mk a _ => a

/-- The nested containers of a table. -/
def AttrTable.containers : AttrTable → List (Str × AttrTable)
  | AttrTable.mk _ c => c

/-- The call `get_attr(name)`: the value of the attribute, the empty string
when the table has no such attribute. -/
def AttrTable.get_attr (t : AttrTable) (name : Str) : Str :=
  match t.attrs.find? (fun p => decide (p.1 = name)) with
  | some p => p.2
  | none => []

/-- The call `find_container(name)`, `none` being the null pointer. -/
def AttrTable.find_container (t : AttrTable) (name : Str) : Option AttrTable :=
  match t.containers.find? (fun p => decide (p.1 = name)) with
  | some p => some p.2
  | none => none

/-- What a connection `AISConnect` to a server answers: the version string, the
DAS, the DDS, and the DataDDS for a constraint expression; each request can
throw. -/
structure AISConnect where
  request_version : Except Exn Str
  request_das : Except Exn AttrTable
  request_dds : Except Exn DDS
  request_data : Str → Except Exn DDS

/-- The attribute name `nlat`. -/
def nlat : Str := "Northernmost_Latitude".toList

/-- The attribute name `slat`. -/
def slat : Str := "Southernmost_Latitude".toList

/-- The attribute name `wlon`. -/
def wlon : Str := "Westernmost_Longitude".toList

/-- The attribute name `elon`. -/
def elon : Str := "Easternmost_Longitude".toList

/-- The attribute name `gcs`. -/
def gcs : Str := "GeographicCS".toList

/-- The attribute name `pcs`. -/
def pcs : Str := "ProjectionCS".toList

/-- The attribute name `norm_proj_param`. -/
def norm_proj_param : Str := "Norm_Proj_Param".toList

/-- The call `s.find_last_of(c)`: index of the last occurrence of `c`, or `none`
for `string::npos`. -/
def find_last_of (s : Str) (c : Char) : Option Nat :=
  match find s.reverse c 0 with
  | none => none
  | some k => some (s.length - 1 - k)

/-- The function `get_variable` (lines 130-145): the variable of that name, or
else the variable named by what follows the last dot.  `find_last_of('.')+1` is
computed on `size_type`, so it is 0 when there is no dot; the `catch` turns the
`std::out_of_range` of `substr` into a null pointer. -/
def get_variable (dds : DDS) (n : Str) : Option BaseType :=
  match dds.var n with
  | some poBT => some poBT
  | none =>
    let pos := match find_last_of n '.' with
      | none => 0
      | some k => k + 1
    match substrFrom n pos with
    | none => none
    | some leaf => dds.var leaf

/-- The state of the loop of `get_var_info` (lines 329-339): the position
`index`, `lat_index`, `lon_index` and `d_iNumBands`. -/
structure VarLoop where
  index : Int
  lat_index : Int
  lon_index : Int
  d_iNumBands : Int
  deriving DecidableEq, Repr

/-- The `for` loop of `get_var_info` (lines 332-339) over the remaining
specifiers. -/
def var_loop : List dim_spec → VarLoop → VarLoop
  | [], st => st
  | i :: rest, st =>
    match i.type with
    | dim_type.lat => var_loop rest ⟨st.index + 1, st.index, st.lon_index, st.d_iNumBands⟩
    | dim_type.lon => var_loop rest ⟨st.index + 1, st.lat_index, st.index, st.d_iNumBands⟩
    | dim_type.range =>
      var_loop rest ⟨st.index + 1, st.lat_index, st.lon_index, i.stop - i.start + 1⟩
    | _ => var_loop rest ⟨st.index + 1, st.lat_index, st.lon_index, st.d_iNumBands⟩

/-- The call `poA->dimension_size(poA->dim_begin() + k)`: the size of the `k`-th
dimension; `none` when the iterator is outside the dimensions of the array,
which is undefined behaviour. -/
def dimension_size (poA : DapArray) (k : Int) : Option Int :=
  if 0 ≤ k then poA.dims[k.toNat]? else none

/-- The switch of `get_var_info` on the type of the elements (lines 349-359). -/
def element_datatype : dods_type → Except Exn GDALDataType
  | dods_type.dods_byte_c => .ok GDALDataType.GDT_Byte
  | dods_type.dods_int16_c => .ok GDALDataType.GDT_Int16
  | dods_type.dods_uint16_c => .ok GDALDataType.GDT_UInt16
  | dods_type.dods_int32_c => .ok GDALDataType.GDT_Int32
  | dods_type.dods_uint32_c => .ok GDALDataType.GDT_UInt32
  | dods_type.dods_float32_c => .ok GDALDataType.GDT_Float32
  | dods_type.dods_float64_c => .ok GDALDataType.GDT_Float64
  | _ => .error (Exn.Error Msg.not_numeric)

/-- The dataset with `d_iVarRank` assigned. -/
def set_rank (ds : DODSDataset) (rank : Int) : DODSDataset :=
  ⟨ds.d_oURL, ds.d_oVarName, ds.d_oBandExpr, ds.d_oBandSpec, rank, ds.d_iNumBands,
    ds.nRasterXSize, ds.nRasterYSize, ds.d_eDatatype, ds.d_dfLLLon, ds.d_dfLLLat, ds.d_dfURLon,
    ds.d_dfURLat, ds.d_oWKT⟩

/-- The dataset with `d_iNumBands`, `nRasterXSize`, `nRasterYSize` and
`d_eDatatype` assigned. -/
def set_raster (ds : DODSDataset) (bands width height : Int) (t : GDALDataType) : DODSDataset :=
  ⟨ds.d_oURL, ds.d_oVarName, ds.d_oBandExpr, ds.d_oBandSpec, ds.d_iVarRank, bands,
    width, height, t, ds.d_dfLLLon, ds.d_dfLLLat, ds.d_dfURLon, ds.d_dfURLat, ds.d_oWKT⟩

/-- The part of `get_var_info` that follows the choice of the array (lines
315-359): rank, validation, loop, raster sizes, pixel type.  `none` is the
undefined behaviour of a dimension iterator outside the array. -/
def var_info_of_array (ds : DODSDataset) (poA : DapArray) : Option (Except Exn DODSDataset) :=
  let ds1 := set_rank ds (poA.dims.length : Int)
  match verify_layer_spec ds1 with
  | .error e => some (.error e)
  | .ok _ =>
    let st := var_loop ds1.d_oBandSpec ⟨0, -1, -1, 1⟩
    match dimension_size poA st.lon_index, dimension_size poA st.lat_index with
    | some width, some height =>
      match element_datatype poA.elem with
      | .error e => some (.error e)
      | .ok t => some (.ok (set_raster ds1 st.d_iNumBands width height t))
    | _, _ => none

/-- The method `DODSDataset::get_var_info` (lines 291-362).  The DAS is not
read by the method. -/
def get_var_info (dds : DDS) (ds : DODSDataset) : Option (Except Exn DODSDataset) :=
  match get_variable dds ds.d_oVarName with
  | none => some (.error (Exn.Error (Msg.variable_not_found ds.d_oVarName)))
  | some (BaseType.grid poA) => var_info_of_array ds poA
  | some (BaseType.array poA) => var_info_of_array ds poA
  | some (BaseType.other _) => some (.error (Exn.Error Msg.not_array_or_grid))

/-! ### Geo-referencing and `Open` -/

/-- The functions of the C library and of the spatial-reference library that
the source calls: `strtod` on the text of an attribute, and the text that
`exportToWkt` gives for a spatial reference built by `SetProjCS`,
`SetWellKnownGeogCS` and the calls of `SetNormProjParm`. -/
structure Library where
  strtod : Str → ℚ
  exportToWkt : Str → Str → List (Str × ℚ) → Str

/-- The test `value == "" || value == "None"` made on every attribute value. -/
def not_given (value : Str) : Bool :=
  decide (value = [] ∨ value = "None".toList)

/-- The dataset with the four corner coordinates and the WKT text replaced. -/
def set_geo (ds : DODSDataset) (lllon lllat urlon urlat : ℚ) (wkt : Str) : DODSDataset :=
  ⟨ds.d_oURL, ds.d_oVarName, ds.d_oBandExpr, ds.d_oBandSpec, ds.d_iVarRank, ds.d_iNumBands,
    ds.nRasterXSize, ds.nRasterYSize, ds.d_eDatatype, lllon, lllat, urlon, urlat, wkt⟩

/-- The choice of the attribute container at the start of `get_geo_info` (lines
408-424): the container of the variable, or the container `opendap_org_gdal`
when the former is missing or gives no value for `nlat`; `none` when the second
lookup returns a null pointer, which makes the method throw. -/
def geo_container (das : AttrTable) (varName : Str) : Option AttrTable :=
  match das.find_container varName with
  | none => das.find_container ("opendap_org_gdal".toList)
  | some tbl =>
    if not_given (tbl.get_attr nlat) then das.find_container ("opendap_org_gdal".toList)
    else some tbl

/-- The method `DODSDataset::get_geo_info` (lines 405-485).  The first component
is the dataset as the method leaves it, also when it throws: the members
assigned before the `throw` keep their new value.  The DDS is not read by the
method. -/
def get_geo_info (lib : Library) (das : AttrTable) (ds : DODSDataset) :
    DODSDataset × Except Exn Unit :=
  match geo_container das ds.d_oVarName with
  | none => (ds, .error (Exn.Error (Msg.no_geo_container ds.d_oVarName)))
  | some tbl =>
    if not_given (tbl.get_attr nlat) then
      (ds, .error (Exn.Error (Msg.geo_value_not_found ds.d_oVarName nlat)))
    else
    let ds1 := set_geo ds ds.d_dfLLLon ds.d_dfLLLat ds.d_dfURLon
      (lib.strtod (tbl.get_attr nlat)) ds.d_oWKT
    if not_given (tbl.get_attr slat) then
      (ds1, .error (Exn.Error (Msg.geo_value_not_found ds.d_oVarName slat)))
    else
    let ds2 := set_geo ds1 ds1.d_dfLLLon (lib.strtod (tbl.get_attr slat)) ds1.d_dfURLon
      ds1.d_dfURLat ds1.d_oWKT
    if not_given (tbl.get_attr elon) then
      (ds2, .error (Exn.Error (Msg.geo_value_not_found ds.d_oVarName elon)))
    else
    let ds3 := set_geo ds2 ds2.d_dfLLLon ds2.d_dfLLLat (lib.strtod (tbl.get_attr elon))
      ds2.d_dfURLat ds2.d_oWKT
    if not_given (tbl.get_attr wlon) then
      (ds3, .error (Exn.Error (Msg.geo_value_not_found ds.d_oVarName wlon)))
    else
    let ds4 := set_geo ds3 (lib.strtod (tbl.get_attr wlon)) ds3.d_dfLLLat ds3.d_dfURLon
      ds3.d_dfURLat ds3.d_oWKT
    let ds5 := set_geo ds4 ds4.d_dfLLLon ds4.d_dfLLLat ds4.d_dfURLon ds4.d_dfURLat []
    if not_given (tbl.get_attr pcs) then
      (ds5, .error (Exn.Error (Msg.geo_value_not_found ds.d_oVarName pcs)))
    else if not_given (tbl.get_attr gcs) then
      (ds5, .error (Exn.Error (Msg.geo_value_not_found ds.d_oVarName gcs)))
    else
    let parms := match tbl.find_container norm_proj_param with
      | none => []
      | some parm => parm.attrs.map (fun p => (p.1, lib.strtod p.2))
    (set_geo ds5 ds5.d_dfLLLon ds5.d_dfLLLat ds5.d_dfURLon ds5.d_dfURLat
        (lib.exportToWkt (tbl.get_attr pcs) (tbl.get_attr gcs) parms),
      .ok ())

/-- The call `s.find(t)` for a text `t`: index of the first occurrence of `t` in
`s`, or `none` for `string::npos`.  The argument `i` is the index of the head of
the list in the whole string. -/
def find_text_aux (t : Str) : Str → Nat → Option Nat
  | [], i => if t = [] then some i else none
  | x :: xs, i => if t.isPrefixOf (x :: xs) then some i else find_text_aux t xs (i + 1)

/-- The call `s.find(t)` of `std::string` for a text `t`. -/
def find_text (s t : Str) : Option Nat :=
  find_text_aux t s 0

/-- The method `DODSDataset::connect_to_server` (lines 216-233); `net` is what
`new AISConnect(url)` connects to. -/
def connect_to_server (net : Str → AISConnect) (ds : DODSDataset) : Except Exn AISConnect :=
  if find_text ds.d_oURL ("http://".toList) = none ∧ find_text ds.d_oURL ("https://".toList) = none
  then .error (Exn.Error Msg.not_http)
  else
    let poConnection := net ds.d_oURL
    match poConnection.request_version with
    | .error e => .error e
    | .ok version =>
      if version = [] ∨ find_text version ("/3.".toList) = none then
        .error (Exn.Error Msg.no_dap3_version)
      else .ok poConnection

/-- The macro `EQUALN(a, b, n)`: the first `n` characters of the two texts are
the same, letter case apart. -/
def EQUALN (a b : Str) (n : Nat) : Bool :=
  decide ((a.take n).map Char.toLower = (b.take n).map Char.toLower)

/-- The members of `DODSRasterBand` that its constructor sets; the owning
dataset `poDS` is passed to its methods. -/
structure DODSRasterBand where
  nBand : Int
  eDataType : GDALDataType
  nBlockXSize : Int
  nBlockYSize : Int
  deriving DecidableEq, Repr

/-- The constructor `DODSRasterBand::DODSRasterBand` (lines 732-741). -/
def DODSRasterBand.create (DS : DODSDataset) (band_num : Int) : DODSRasterBand :=
  ⟨band_num, DS.d_eDatatype, DS.nRasterXSize, DS.nRasterYSize⟩

/-- The `for` loop of `Open` (lines 670-671) with `n` iterations left: the calls
`SetBand(i+1, new DODSRasterBand(poDS, i+1))`, as pairs of the number under
which a band is registered and the band. -/
def band_loop (poDS : DODSDataset) : Nat → Int → List (Int × DODSRasterBand)
  | 0, _ => []
  | n + 1, i => (i + 1, DODSRasterBand.create poDS (i + 1)) :: band_loop poDS n (i + 1)

/-- What `Open` returns: a dataset with its connection and its bands, or a null
pointer. -/
inductive OpenResult where
  | dataset (poDS : DODSDataset) (d_poConnect : AISConnect)
      (bands : List (Int × DODSRasterBand))
  | null

/-- What the handler `catch (Error &e)` of `Open` does with an exception thrown
by one of the steps before `get_geo_info`: a null pointer for an `Error` (or its
subclass `InternalErr`); `none` for another exception, which no handler
catches. -/
def open_failed : Exn → Option OpenResult
  | Exn.Error _ => some OpenResult.null
  | Exn.InternalErr _ => some OpenResult.null
  | Exn.out_of_range => none

/-- The geo-referencing step of `Open` (lines 648-655): `get_geo_info`, and on
an `Error` the four assignments of the handler.  `none` for an exception that
the handler does not catch. -/
def geo_step (lib : Library) (das : AttrTable) (ds : DODSDataset) : Option DODSDataset :=
  match get_geo_info lib das ds with
  | (ds2, .ok _) => some ds2
  | (ds2, .error (Exn.Error _)) =>
    some (set_geo ds2 0 (ds2.nRasterYSize : ℚ) (ds2.nRasterXSize : ℚ) 0 ds2.d_oWKT)
  | (ds2, .error (Exn.InternalErr _)) =>
    some (set_geo ds2 0 (ds2.nRasterYSize : ℚ) (ds2.nRasterXSize : ℚ) 0 ds2.d_oWKT)
  | (_, .error Exn.out_of_range) => none

/-- The function `DODSDataset::Open` (lines 622-674) on the file name
`pszFilename`.  `none` stands for an execution without defined result: the
loop of `parse_input` out of fuel, a dimension iterator outside the array, or
an exception that no handler catches. -/
def Open (lib : Library) (net : Str → AISConnect) (classify : Str → dim_spec)
    (pszFilename : Str) : Option OpenResult :=
  if (!EQUALN pszFilename ("http://".toList) 7 && !EQUALN pszFilename ("https://".toList) 8) then
    some OpenResult.null
  else
    match parse_input classify DODSDataset.fresh pszFilename with
    | none => none
    | some (.error e) => open_failed e
    | some (.ok ds1) =>
      match connect_to_server net ds1 with
      | .error e => open_failed e
      | .ok conn =>
        match conn.request_das with
        | .error e => open_failed e
        | .ok das =>
          match conn.request_dds with
          | .error e => open_failed e
          | .ok dds =>
            match get_var_info dds ds1 with
            | none => none
            | some (.error e) => open_failed e
            | some (.ok ds2) =>
              match geo_step lib das ds2 with
              | none => none
              | some poDS =>
                some (OpenResult.dataset poDS conn (band_loop poDS poDS.d_iNumBands.toNat 0))

/-- The method `DODSDataset::GetGeoTransform` (lines 702-715): the six values
written to `padfTransform`, in the order of their index.  `fl` is the rounding
of an arithmetic operation on `double`; it is the identity for exact
arithmetic. -/
def GetGeoTransform (fl : ℚ → ℚ) (ds : DODSDataset) : List ℚ :=
  [ds.d_dfLLLon,
   fl (fl (ds.d_dfURLon - ds.d_dfLLLon) / (ds.nRasterXSize : ℚ)),
   0,
   ds.d_dfURLat,
   0,
   fl (fl (-1 * fl (ds.d_dfURLat - ds.d_dfLLLat)) / (ds.nRasterYSize : ℚ))]

/-! ### Arithmetic on `double` -/

/-- Exact arithmetic: no rounding. -/
def exact (q : ℚ) : ℚ := q

/-- The conversion `(int) x` of a `double`: the fractional part is dropped. -/
def trunc (q : ℚ) : Int :=
  Int.tdiv q.num (q.den : Int)

/-! ### Reading a raster band -/

/-- The error codes `CPLErr` that the source returns. -/
inductive CPLErr where
  | CE_None
  | CE_Failure
  deriving DecidableEq, Repr

/-- The buffers `GetRaster` is asked to fill: the buffer `pData` of the caller
of `IRasterIO`, its scratch buffer `pabLocal`, and the buffer of the caller of
`IReadBlock` (its parameter `pImage`). -/
inductive Buffer where
  | pData
  | pabLocal
  | pBlock
  deriving DecidableEq, Repr

/-- The calls `IRasterIO` makes to fetch and to move pixels, with their
arguments; the offsets are byte offsets from the start of `pabLocal` (source)
and of `pData` (destination). -/
inductive Event where
  | GetRaster (iXOffset iYOffset iXSize iYSize iBandNum : Int) (pImage : Buffer)
  | GDALCopyWords (nSrcOffset : Int) (eSrcType : GDALDataType) (nSrcPixelOffset : Int)
      (nDstOffset : Int) (eDstType : GDALDataType) (nDstPixelOffset : Int) (nWordCount : Int)
  | memcpy (nDstOffset nSrcOffset nBytes : Int)
  deriving DecidableEq, Repr

/-- The three blocks of `IRasterIO` that read: lines 822-838, lines 844-864 and
lines 869-928. -/
inductive ReadPath where
  | direct
  | converted
  | resampled
  deriving DecidableEq, Repr

/-- The result of `IRasterIO`: the code returned, the block that read (`none`
when the method returned before reading) and the calls made, in order.  The
block is not a value of the source; it records which `return` was reached. -/
structure ReadResult where
  err : CPLErr
  path : Option ReadPath
  calls : List Event
  deriving DecidableEq, Repr

/-- The method `DODSDataset::GetRaster` (lines 573-606) up to the copy of the
values into `pImage`: the constraint is built, the data requested, and the
variable looked for in the answer. -/
def GetRaster (conn : AISConnect) (ds : DODSDataset)
    (iXOffset iYOffset iXSize iYSize iBandNum : Int) : Except Exn Unit :=
  match BuildConstraint ds iXOffset iYOffset iXSize iYSize iBandNum with
  | .error e => .error e
  | .ok ce =>
    match conn.request_data ce with
    | .error e => .error e
    | .ok data =>
      match get_variable data ds.d_oVarName with
      | none => .error (Exn.Error (Msg.could_not_read ds.d_oVarName ds.d_oURL))
      | some (BaseType.grid _) => .ok ()
      | some (BaseType.array _) => .ok ()
      | some (BaseType.other _) => .error (Exn.InternalErr Msg.expected_array_or_grid)

/-- The index `(int) ((iBufOff+0.5) * dfSrcInc)` of lines 884-885 and 891-893,
`fl` being the rounding of an operation on `double`. -/
def source_index (fl : ℚ → ℚ) (iBufOff : Int) (dfSrcInc : ℚ) : Int :=
  trunc (fl (fl ((iBufOff : ℚ) + 1 / 2) * dfSrcInc))

/-- The copy of one pixel in the resampling block (lines 901-913), from byte
offset `iSrcOffset` of `pabLocal` to byte offset `iBufOffset` of `pData`: a
`memcpy` when the two pixel types are the same, a conversion of one word
otherwise. -/
def copy_pixel (eDataType eBufType : GDALDataType) (nBandDataSize nBufDataSize : Int)
    (iSrcOffset iBufOffset : Int) : Event :=
  if eDataType = eBufType then Event.memcpy iBufOffset iSrcOffset nBandDataSize
  else Event.GDALCopyWords iSrcOffset eDataType nBandDataSize iBufOffset eBufType nBufDataSize 1

/-- The inner loop of the resampling block (lines 890-916) with `n` iterations
left, at column `iBufXOff` of the buffer and byte offset `iBufOffset`. -/
def pixel_loop (fl : ℚ → ℚ) (eDataType eBufType : GDALDataType)
    (nBandDataSize nBufDataSize nXSize nPixelSpace : Int) (dfSrcXInc : ℚ) (iSrcY : Int) :
    Nat → Int → Int → List Event
  | 0, _, _ => []
  | n + 1, iBufXOff, iBufOffset =>
    copy_pixel eDataType eBufType nBandDataSize nBufDataSize
        ((source_index fl iBufXOff dfSrcXInc + iSrcY * nXSize) * nBandDataSize) iBufOffset
      :: pixel_loop fl eDataType eBufType nBandDataSize nBufDataSize nXSize nPixelSpace
          dfSrcXInc iSrcY n (iBufXOff + 1) (iBufOffset + nPixelSpace)

/-- The outer loop of the resampling block (lines 883-917) with `n` iterations
left, at line `iBufYOff` of the buffer. -/
def line_loop (fl : ℚ → ℚ) (eDataType eBufType : GDALDataType)
    (nBandDataSize nBufDataSize nXSize nBufXSize nPixelSpace nLineSpace : Int)
    (dfSrcXInc dfSrcYInc : ℚ) : Nat → Int → List Event
  | 0, _ => []
  | n + 1, iBufYOff =>
    pixel_loop fl eDataType eBufType nBandDataSize nBufDataSize nXSize nPixelSpace dfSrcXInc
        (source_index fl iBufYOff dfSrcYInc) nBufXSize.toNat 0 (iBufYOff * nLineSpace)
      ++ line_loop fl eDataType eBufType nBandDataSize nBufDataSize nXSize nBufXSize
          nPixelSpace nLineSpace dfSrcXInc dfSrcYInc n (iBufYOff + 1)

/-- The method `DODSRasterBand::IRasterIO` (lines 782-929) of the band `band` of
the dataset `ds`.  `GDALGetDataTypeSize` gives the size of a pixel type in
bits, `fl` is the rounding of an operation on `double`, `conn` the connection of
the dataset.  The parameter `eRWFlag` is not read by the method.  The
allocation and the release of the scratch buffer are not recorded, and the
byte offsets in the calls are the values of the offset expressions over the
integers; `scratch_size`, `iSrcOffset` and `iBufOffset` give the values that
the source computes in `int`, which differ from them when an `int`
overflows.  Every
exception that leaves `GetRaster` is an `Error` of libdap, which the handlers
catch.  A quotient by a buffer size of zero is never used: the loop over that
side of the buffer has no iteration. -/
def IRasterIO (GDALGetDataTypeSize : GDALDataType → Int) (fl : ℚ → ℚ) (conn : AISConnect)
    (ds : DODSDataset) (band : DODSRasterBand)
    (nXOff nYOff nXSize nYSize nBufXSize nBufYSize : Int) (eBufType : GDALDataType)
    (nPixelSpace nLineSpace : Int) : ReadResult :=
  if nPixelSpace ≠ Int.tdiv (GDALGetDataTypeSize eBufType) 8
      ∨ nLineSpace ≠ nPixelSpace * nBufXSize then
    ⟨CPLErr.CE_Failure, none, []⟩
  else if nXOff + nXSize > ds.nRasterXSize ∨ nYOff + nYSize > ds.nRasterYSize then
    ⟨CPLErr.CE_Failure, none, []⟩
  else if band.eDataType = eBufType ∧ nXSize = nBufXSize ∧ nYSize = nBufYSize then
    match GetRaster conn ds nXOff nYOff nXSize nYSize band.nBand with
    | .error _ =>
      ⟨CPLErr.CE_Failure, some ReadPath.direct,
        [Event.GetRaster nXOff nYOff nXSize nYSize band.nBand Buffer.pData]⟩
    | .ok _ =>
      ⟨CPLErr.CE_None, some ReadPath.direct,
        [Event.GetRaster nXOff nYOff nXSize nYSize band.nBand Buffer.pData]⟩
  else if nXSize = nBufXSize ∧ nYSize = nBufYSize then
    match GetRaster conn ds nXOff nYOff nXSize nYSize band.nBand with
    | .error _ =>
      ⟨CPLErr.CE_Failure, some ReadPath.converted,
        [Event.GetRaster nXOff nYOff nXSize nYSize band.nBand Buffer.pabLocal]⟩
    | .ok _ =>
      ⟨CPLErr.CE_None, some ReadPath.converted,
        [Event.GetRaster nXOff nYOff nXSize nYSize band.nBand Buffer.pabLocal,
         Event.GDALCopyWords 0 band.eDataType (Int.tdiv (GDALGetDataTypeSize band.eDataType) 8)
           0 eBufType (Int.tdiv (GDALGetDataTypeSize eBufType) 8) (nBufXSize * nBufYSize)]⟩
  else
    match GetRaster conn ds nXOff nYOff nXSize nYSize band.nBand with
    | .error _ =>
      ⟨CPLErr.CE_Failure, some ReadPath.resampled,
        [Event.GetRaster nXOff nYOff nXSize nYSize band.nBand Buffer.pabLocal]⟩
    | .ok _ =>
      ⟨CPLErr.CE_None, some ReadPath.resampled,
        Event.GetRaster nXOff nYOff nXSize nYSize band.nBand Buffer.pabLocal
          :: line_loop fl band.eDataType eBufType
              (Int.tdiv (GDALGetDataTypeSize band.eDataType) 8)
              (Int.tdiv (GDALGetDataTypeSize eBufType) 8) nXSize nBufXSize nPixelSpace
              nLineSpace (fl ((nXSize : ℚ) / (nBufXSize : ℚ)))
              (fl ((nYSize : ℚ) / (nBufYSize : ℚ))) nBufYSize.toNat 0⟩

/-- The method `DODSRasterBand::IReadBlock` (lines 948-966) of the band `band`
of the dataset `ds`: the code returned and the calls made.  The `InternalErr`
thrown for a block offset that is not zero is caught by the handler of the
method, as is every `Error` that leaves `GetRaster`. -/
def IReadBlock (conn : AISConnect) (ds : DODSDataset) (band : DODSRasterBand)
    (nBlockXOff nBlockYOff : Int) : CPLErr × List Event :=
  if nBlockXOff ≠ 0 ∨ nBlockYOff ≠ 0 then (CPLErr.CE_Failure, [])
  else
    match GetRaster conn ds 0 0 band.nBlockXSize band.nBlockYSize band.nBand with
    | .error _ =>
      (CPLErr.CE_Failure,
        [Event.GetRaster 0 0 band.nBlockXSize band.nBlockYSize band.nBand Buffer.pBlock])
    | .ok _ =>
      (CPLErr.CE_None,
        [Event.GetRaster 0 0 band.nBlockXSize band.nBlockYSize band.nBand Buffer.pBlock])

/-- The value that an `int` of 32 bits holds for the integer `z`: `z` itself
when `-2^31 ≤ z < 2^31`, and otherwise the value that two's complement
arithmetic leaves (an overflow of `int`, which the language leaves undefined). -/
def int32 (z : Int) : Int :=
  (z + 2147483648) % 4294967296 - 2147483648

/-- The source byte offset `int iSrcOffset = (iSrcX + (iSrcY * nXSize)) *
nBandDataSize` of line 896: the value of the expression in `int`. -/
def iSrcOffset (iSrcX iSrcY nXSize nBandDataSize : Int) : Int :=
  int32 (int32 (iSrcX + int32 (iSrcY * nXSize)) * nBandDataSize)

/-- The destination byte offset `iBufOffset` when the inner loop is at column
`n` of line `iBufYOff`: `int iBufOffset = iBufYOff * nLineSpace` (line 887),
then `iBufOffset += nPixelSpace` once per column (line 914), in `int`. -/
def iBufOffset (iBufYOff nLineSpace nPixelSpace : Int) : Nat → Int
  | 0 => int32 (iBufYOff * nLineSpace)
  | n + 1 => int32 (iBufOffset iBufYOff nLineSpace nPixelSpace n + nPixelSpace)

/-- A connection whose server speaks DAP 3 and answers every data request with
an array of bytes found under any name; used in examples. -/
def array_server : AISConnect :=
  ⟨.ok ("dods/3.4".toList), .ok (AttrTable.mk [] []),
   .ok ⟨fun _ => some (BaseType.array ⟨[256, 512], dods_type.dods_byte_c⟩)⟩,
   fun _ => .ok ⟨fun _ => some (BaseType.array ⟨[], dods_type.dods_byte_c⟩)⟩⟩

/-- A connection whose server speaks DAP 3, serves an array of 256 by 512 bytes
under every name, and whose DAS has a container `V` with a northernmost
latitude and nothing else; used in examples. -/
def north_only_server : AISConnect :=
  ⟨.ok ("dods/3.4".toList),
   .ok (AttrTable.mk [] [(['V'], AttrTable.mk [(nlat, "10".toList)] [])]),
   .ok ⟨fun _ => some (BaseType.array ⟨[256, 512], dods_type.dods_byte_c⟩)⟩,
   fun _ => .ok ⟨fun _ => some (BaseType.array ⟨[], dods_type.dods_byte_c⟩)⟩⟩

/-- A library whose `strtod` gives 7 for every text and whose WKT export gives
the text `W`; used in examples. -/
def sample_library : Library :=
  ⟨fun _ => 7, fun _ _ _ => ['W']⟩

/-- The sizes in bits of the pixel types, as the table of GDAL gives them; used
where an instance of the parameter `GDALGetDataTypeSize` is needed. -/
def type_bits : GDALDataType → Int
  | GDALDataType.GDT_Unknown => 0
  | GDALDataType.GDT_Byte => 8
  | GDALDataType.GDT_Int16 => 16
  | GDALDataType.GDT_UInt16 => 16
  | GDALDataType.GDT_Int32 => 32
  | GDALDataType.GDT_UInt32 => 32
  | GDALDataType.GDT_Float32 => 32
  | GDALDataType.GDT_Float64 => 64

/-! ## Properties

### Strings -/

/-- The scan passes over a stretch that does not hold the character. -/
theorem findAux_skip (c : Char) (a b : List Char) (i : Nat) (h : c ∉ a) :
    findAux c (a ++ b) i = findAux c b (i + a.length) := by
  induction a generalizing i with
  | nil => simp
  | cons x xs ih =>
    have hx : x ≠ c := fun e => h (by simp [e])
    have hxs : c ∉ xs := fun e => h (by simp [e])
    simp [findAux, hx, ih (i + 1) hxs]
    congr 1; omega

/-- The scan stops at the first occurrence of the character. -/
theorem findAux_hit (c : Char) (a b : List Char) (i : Nat) (h : c ∉ a) :
    findAux c (a ++ c :: b) i = some (i + a.length) := by
  rw [findAux_skip c a _ i h]; simp [findAux]

/-- The scan of a text without the character finds nothing. -/
theorem findAux_none (c : Char) (a : List Char) (i : Nat) (h : c ∉ a) :
    findAux c a i = none := by
  have := findAux_skip c a [] i h
  simpa [findAux] using this

/-- A successful scan splits the text at the first occurrence of the character. -/
theorem findAux_some (c : Char) (s : List Char) (i k : Nat) (h : findAux c s i = some k) :
    ∃ a b, s = a ++ c :: b ∧ c ∉ a ∧ k = i + a.length := by
  induction s generalizing i with
  | nil => simp [findAux] at h
  | cons x xs ih =>
    by_cases hx : x = c
    · simp [findAux, hx] at h
      exact ⟨[], xs, by simp [hx], by simp, by simp [h]⟩
    · simp [findAux, hx] at h
      obtain ⟨a, b, hs, ha, hk⟩ := ih (i + 1) h
      refine ⟨x :: a, b, by simp [hs], ?_, by simp [hk]; omega⟩
      simp [ha]; exact fun e => hx e.symm

/-- A successful search returns an index of the string that is not before the
starting position. -/
theorem find_ge (s : Str) (c : Char) (pos k : Nat) (h : find s c pos = some k) :
    pos ≤ k ∧ k < s.length := by
  obtain ⟨a, b, hs, -, hk⟩ := findAux_some c (s.drop pos) pos k h
  have hl : (s.drop pos).length = a.length + (b.length + 1) := by rw [hs]; simp
  rw [List.length_drop] at hl
  omega

/-- Searching from the start finds the first occurrence of the character. -/
theorem find_zero_hit (c : Char) (a b : List Char) (h : c ∉ a) :
    find (a ++ c :: b) c 0 = some a.length := by
  simp [find, findAux_hit c a b 0 h]

/-! ### The locator parser -/

/-- Inversion of a successful run of `parse_input`: the locator splits at its
first question mark and at the first opening bracket after it, and the loop has
run to its end on the band expression. -/
theorem parse_input_fuel_ok (fuel : Nat) (classify : Str → dim_spec) (ds ds2 : DODSDataset)
    (filename : Str) (h : parse_input_fuel fuel classify ds filename = some (.ok ds2)) :
    ∃ url var rest spec, filename = url ++ '?' :: var ++ '[' :: rest ∧ '?' ∉ url ∧ url ≠ [] ∧
      '[' ∉ var ∧ var ≠ [] ∧
      parse_loop classify ('[' :: rest) fuel (some 0) (find ('[' :: rest) ']' 0) ds.d_oBandSpec
        = some (.ok spec) ∧
      ds2 = store_locator ds url var ('[' :: rest) spec := by
  unfold parse_input_fuel at h
  cases hq : find filename '?' 0 with
  | none => simp [hq] at h
  | some q_mark =>
    obtain ⟨url, tail, hfile, hurl, hqlen⟩ := findAux_some '?' filename 0 q_mark (by simpa [find] using hq)
    simp only [Nat.zero_add] at hqlen
    subst hqlen
    subst hfile
    have hsub : substr (url ++ '?' :: tail) 0 url.length = some url := by
      simp [substr]
    simp only [hq, hsub] at h
    by_cases hu : url.length = 0
    · simp [hu] at h
    · simp only [hu, if_false] at h
      have hfind : find (url ++ '?' :: tail) '[' (url.length + 1) = findAux '[' tail (url.length + 1) := by
        simp [find]
      cases hb : findAux '[' tail (url.length + 1) with
      | none => simp [hfind, hb] at h
      | some bracket =>
        obtain ⟨var, rest, htail, hvar, hblen⟩ := findAux_some '[' tail _ bracket hb
        subst htail
        subst hblen
        have hsubv : substr (url ++ '?' :: (var ++ '[' :: rest)) (url.length + 1)
            (url.length + 1 + var.length - url.length - 1) = some var := by
          have e : url.length + 1 + var.length - url.length - 1 = var.length := by omega
          simp [substr, e]
        have hsube : substrFrom (url ++ '?' :: (var ++ '[' :: rest)) (url.length + 1 + var.length)
            = some ('[' :: rest) := by
          have e : url ++ '?' :: (var ++ '[' :: rest) = (url ++ '?' :: var) ++ '[' :: rest := by simp
          have l : url.length + 1 + var.length = (url ++ '?' :: var).length := by simp; omega
          rw [e, l]
          simp [substrFrom]
        simp only [hfind, hb, hsubv, hsube] at h
        by_cases hv : var.length = 0
        · simp [hv] at h
        · simp only [hv, if_false] at h
          cases hl : parse_loop classify ('[' :: rest) fuel (some 0) (find ('[' :: rest) ']' 0) ds.d_oBandSpec with
          | none => simp [hl] at h
          | some r =>
            cases r with
            | error e => simp [hl] at h
            | ok spec =>
              simp [hl] at h
              refine ⟨url, var, rest, spec, by simp, hurl, ?_, hvar, ?_, hl, h.symm⟩
              · intro e; exact hu (by simp [e])
              · intro e; exact hv (by simp [e])



/-- The substring that starts after `pre` and has the length of `mid`. -/
theorem substr_mid (pre mid post : Str) :
    substr (pre ++ (mid ++ post)) pre.length mid.length = some mid := by
  simp [substr]

/-- The loop of `parse_input`, positioned on the group `g` that follows the
text `pre`, appends the classification of `g` and of the groups after it. -/
theorem parse_loop_groups (classify : Str → dim_spec) (rest : List Str) :
    ∀ (pre g : Str) (fuel : Nat) (spec : List dim_spec),
      (∀ x ∈ g :: rest, '[' ∉ x ∧ ']' ∉ x) → rest.length + 1 ≤ fuel →
      parse_loop classify (pre ++ bracket_groups (g :: rest)) fuel (some pre.length)
          (some (pre.length + g.length + 1)) spec
        = some (.ok (spec ++ (g :: rest).map (fun x => classify ('[' :: x ++ [']'])))) := by
  induction rest with
  | nil =>
    intro pre g fuel spec hg hfuel
    obtain ⟨f, rfl⟩ : ∃ f, fuel = f + 1 := ⟨fuel - 1, by omega⟩
    have hgb := hg g (by simp)
    have hsub : substr (pre ++ bracket_groups [g]) pre.length (pre.length + g.length + 1 - pre.length + 1)
        = some ('[' :: g ++ [']']) := by
      have e : pre.length + g.length + 1 - pre.length + 1 = ('[' :: g ++ [']']).length := by
        simp; omega
      rw [e]
      simp [substr, bracket_groups]
    have hfind : find (pre ++ bracket_groups [g]) '[' (pre.length + g.length + 1) = none := by
      have e : pre ++ bracket_groups [g] = (pre ++ '[' :: g) ++ [']'] := by simp [bracket_groups]
      have l : pre.length + g.length + 1 = (pre ++ '[' :: g).length := by simp; omega
      rw [e, l]
      simp [find, findAux]
    rw [parse_loop]
    simp only [hsub, hfind, findFrom]
    cases f <;> simp [parse_loop]
  | cons g2 rest ih =>
    intro pre g fuel spec hg hfuel
    obtain ⟨f, rfl⟩ : ∃ f, fuel = f + 1 := ⟨fuel - 1, by simp at hfuel; omega⟩
    have hgb := hg g (by simp)
    have hg2b := hg g2 (by simp)
    have hsub : substr (pre ++ bracket_groups (g :: g2 :: rest)) pre.length
        (pre.length + g.length + 1 - pre.length + 1) = some ('[' :: g ++ [']']) := by
      have e : pre.length + g.length + 1 - pre.length + 1 = ('[' :: g ++ [']']).length := by
        simp; omega
      have e2 : pre ++ bracket_groups (g :: g2 :: rest)
          = pre ++ (('[' :: g ++ [']']) ++ bracket_groups (g2 :: rest)) := by
        simp [bracket_groups]
      rw [e, e2]
      exact substr_mid pre _ _
    have e3 : pre ++ bracket_groups (g :: g2 :: rest)
        = (pre ++ '[' :: g) ++ ']' :: '[' :: (g2 ++ ']' :: bracket_groups rest) := by
      simp [bracket_groups]
    have l3 : pre.length + g.length + 1 = (pre ++ '[' :: g).length := by simp; omega
    have hfind : find (pre ++ bracket_groups (g :: g2 :: rest)) '[' (pre.length + g.length + 1)
        = some (pre.length + g.length + 2) := by
      rw [e3, l3]
      simp [find, findAux]
      omega
    have e4 : pre ++ bracket_groups (g :: g2 :: rest)
        = (pre ++ '[' :: g ++ [']']) ++ '[' :: (g2 ++ ']' :: bracket_groups rest) := by
      simp [bracket_groups]
    have l4 : pre.length + g.length + 2 = (pre ++ '[' :: g ++ [']']).length := by simp; omega
    have hfind2 : find (pre ++ bracket_groups (g :: g2 :: rest)) ']' (pre.length + g.length + 2)
        = some (pre.length + g.length + 2 + g2.length + 1) := by
      rw [e4, l4]
      have := findAux_hit ']' ('[' :: g2) (bracket_groups rest)
        (pre ++ '[' :: g ++ [']']).length (by simp [hg2b.2])
      simp [find] at this ⊢
      rw [this]; simp; omega
    rw [parse_loop]
    simp only [hsub, hfind, findFrom, hfind2]
    have key := ih (pre ++ '[' :: g ++ [']']) g2 f (spec ++ [classify ('[' :: g ++ [']'])])
      (fun x hx => hg x (by simp at hx ⊢; tauto)) (by simp at hfuel ⊢; omega)
    have e5 : (pre ++ '[' :: g ++ [']']) ++ bracket_groups (g2 :: rest)
        = pre ++ bracket_groups (g :: g2 :: rest) := by simp [bracket_groups]
    rw [e5, ← l4] at key
    rw [key]
    simp

/-- A text of bracket groups has at least as many characters as groups. -/
theorem length_bracket_groups (gs : List Str) : gs.length ≤ (bracket_groups gs).length := by
  induction gs with
  | nil => simp [bracket_groups]
  | cons g gs ih => simp [bracket_groups]; omega

/-- The dataset `parse_input` returns on a locator made of a URL, a variable
name and bracket groups. -/
theorem parse_input_of_groups (classify : Str → dim_spec) (ds : DODSDataset)
    (url var : Str) (gs : List Str) (hu : url ≠ []) (hq : '?' ∉ url) (hv : var ≠ [])
    (hb : '[' ∉ var) (hgs : gs ≠ []) (hg : ∀ g ∈ gs, '[' ∉ g ∧ ']' ∉ g) :
    parse_input classify ds (url ++ '?' :: var ++ bracket_groups gs)
      = some (.ok (store_locator ds url var (bracket_groups gs)
          (ds.d_oBandSpec ++ gs.map (fun g => classify ('[' :: g ++ [']'])))) ) := by
  obtain ⟨g, rest, rfl⟩ : ∃ g rest, gs = g :: rest := by
    cases gs with
    | nil => exact absurd rfl hgs
    | cons g rest => exact ⟨g, rest, rfl⟩
  have hgb := hg g (by simp)
  have e1 : url ++ '?' :: var ++ bracket_groups (g :: rest)
      = url ++ '?' :: (var ++ '[' :: (g ++ ']' :: bracket_groups rest)) := by
    simp [bracket_groups]
  have hfq : find (url ++ '?' :: var ++ bracket_groups (g :: rest)) '?' 0 = some url.length := by
    rw [e1]; exact find_zero_hit '?' url _ hq
  have hsu : substr (url ++ '?' :: var ++ bracket_groups (g :: rest)) 0 url.length = some url := by
    simp [substr]
  have hfb : find (url ++ '?' :: var ++ bracket_groups (g :: rest)) '[' (url.length + 1)
      = some (url.length + 1 + var.length) := by
    rw [e1]
    have := findAux_hit '[' var (g ++ ']' :: bracket_groups rest) (url.length + 1) hb
    simp [find, this]
  have hsv : substr (url ++ '?' :: var ++ bracket_groups (g :: rest)) (url.length + 1)
      (url.length + 1 + var.length - url.length - 1) = some var := by
    have e : url.length + 1 + var.length - url.length - 1 = var.length := by omega
    have e2 : url ++ '?' :: var ++ bracket_groups (g :: rest)
        = (url ++ ['?']) ++ (var ++ bracket_groups (g :: rest)) := by simp
    have l : url.length + 1 = (url ++ ['?']).length := by simp
    rw [e, e2, l]
    exact substr_mid _ _ _
  have hse : substrFrom (url ++ '?' :: var ++ bracket_groups (g :: rest))
      (url.length + 1 + var.length) = some (bracket_groups (g :: rest)) := by
    have l : url.length + 1 + var.length = (url ++ '?' :: var).length := by simp; omega
    rw [l]
    simp [substrFrom]
  have hfe : find (bracket_groups (g :: rest)) ']' 0 = some (g.length + 1) := by
    have := findAux_hit ']' ('[' :: g) (bracket_groups rest) 0 (by simp [hgb.2])
    simpa [find, bracket_groups] using this
  have hloop := parse_loop_groups classify rest [] g
    (url ++ '?' :: var ++ bracket_groups (g :: rest)).length ds.d_oBandSpec hg
    (by
      have := length_bracket_groups (g :: rest)
      simp at this ⊢
      omega)
  simp only [List.nil_append, List.length_nil, Nat.zero_add] at hloop
  have hul : ¬ url.length = 0 := by
    intro e; exact hu (List.length_eq_zero.mp e)
  have hvl : ¬ var.length = 0 := by
    intro e; exact hv (List.length_eq_zero.mp e)
  have hel : ¬ (bracket_groups (g :: rest)).length = 0 := by
    simp [bracket_groups]
  unfold parse_input parse_input_fuel
  simp only [hfq, hsu, hul, if_false, hfb, hsv, hvl, hse, hel, hfe, hloop]

/-- A successful search returns an index that holds the character searched. -/
theorem find_getElem (s : Str) (c : Char) (pos k : Nat) (h : find s c pos = some k) :
    s[k]? = some c := by
  obtain ⟨a, b, hs, -, hk⟩ := findAux_some c (s.drop pos) pos k h
  have h1 : (s.drop pos)[a.length]? = some c := by
    rw [hs, List.getElem?_append_right (le_refl _)]; simp
  rw [List.getElem?_drop] at h1
  rw [hk]; exact h1

/-- The loop of `parse_input` ends within `expr.length - fin` iterations, and
normally, when `fin` is the index of a closing bracket not before `beg`: each
iteration moves `fin` to a later closing bracket. -/
theorem parse_loop_terminates (classify : Str → dim_spec) (expr : Str) (fuel : Nat) :
    ∀ (beg fin : Nat) (spec : List dim_spec), beg ≤ fin → expr[fin]? = some ']' →
      expr.length - fin ≤ fuel →
      ∃ spec2, parse_loop classify expr fuel (some beg) (some fin) spec = some (.ok spec2) := by
  induction fuel with
  | zero =>
    intro beg fin spec _ hfin hfuel
    have : fin < expr.length := by
      by_contra hc
      rw [List.getElem?_eq_none (by omega)] at hfin
      cases hfin
    omega
  | succ f ih =>
    intro beg fin spec hbeg hfin hfuel
    have hlt : fin < expr.length := by
      by_contra hc
      rw [List.getElem?_eq_none (by omega)] at hfin
      cases hfin
    have hsub : substr expr beg (fin - beg + 1) = some ((expr.drop beg).take (fin - beg + 1)) := by
      simp [substr]; omega
    rw [parse_loop]
    simp only [hsub]
    cases hb : find expr '[' fin with
    | none => simp [findFrom, parse_loop]
    | some beg2 =>
      cases hf : find expr ']' beg2 with
      | none => simp [findFrom, hf, parse_loop]
      | some fin2 =>
        have h1 := find_ge _ _ _ _ hb
        have h2 := find_getElem _ _ _ _ hb
        have h3 := find_ge _ _ _ _ hf
        have h4 := find_getElem _ _ _ _ hf
        have hne : beg2 ≠ fin := by
          intro e
          rw [e, hfin] at h2
          revert h2; decide
        simp only [findFrom, hf]
        exact ih beg2 fin2 _ h3.1 h4 (by omega)

/-- The method `parse_input` always ends, and never with `std::out_of_range`:
the iterations allowed to its loop suffice for every locator. -/
theorem parse_input_terminates (classify : Str → dim_spec) (ds : DODSDataset) (filename : Str) :
    (∃ ds2, parse_input classify ds filename = some (.ok ds2)) ∨
      ∃ msg, parse_input classify ds filename = some (.error (Exn.Error msg)) := by
  unfold parse_input parse_input_fuel
  cases hq : find filename '?' 0 with
  | none => exact Or.inr ⟨_, rfl⟩
  | some q_mark =>
    have hqb := find_ge _ _ _ _ hq
    have hsu : substr filename 0 q_mark = some ((filename.drop 0).take q_mark) := by
      simp [substr]
    simp only [hsu]
    split
    · exact Or.inr ⟨_, rfl⟩
    · cases hb : find filename '[' (q_mark + 1) with
      | none => exact Or.inr ⟨_, rfl⟩
      | some bracket =>
        have hbb := find_ge _ _ _ _ hb
        have hsv : substr filename (q_mark + 1) (bracket - q_mark - 1)
            = some ((filename.drop (q_mark + 1)).take (bracket - q_mark - 1)) := by
          simp [substr]; omega
        have hse : substrFrom filename bracket = some (filename.drop bracket) := by
          simp [substrFrom]; omega
        simp only [hsv, hse]
        split
        · exact Or.inr ⟨_, rfl⟩
        · split
          · exact Or.inr ⟨_, rfl⟩
          · cases hf : find (filename.drop bracket) ']' 0 with
            | none => left; simp [parse_loop]
            | some fin =>
              have h3 := find_ge _ _ _ _ hf
              have h4 := find_getElem _ _ _ _ hf
              obtain ⟨spec2, hl⟩ := parse_loop_terminates classify (filename.drop bracket)
                filename.length 0 fin ds.d_oBandSpec (by omega) h4
                (by simp [List.length_drop]; omega)
              left; simp [hl]

/-- C1. Every locator accepted by `parse_input` is the stored URL, a question
mark, the stored variable name and the stored band expression, in this order;
the URL is not empty and has no question mark, the variable name is not empty
and has no opening bracket, and the band expression starts with an opening
bracket.  The locator `U?V[0:2][lat][lon]` is accepted with URL `U`, variable
`V` and band expression `[0:2][lat][lon]`, whatever the classifier of the groups
and the dataset are. -/
theorem parse_input_reassembles :
    (∀ (classify : Str → dim_spec) (ds ds2 : DODSDataset) (filename : Str),
      parse_input classify ds filename = some (.ok ds2) →
        filename = ds2.d_oURL ++ ['?'] ++ ds2.d_oVarName ++ ds2.d_oBandExpr ∧
        ds2.d_oURL ≠ [] ∧ '?' ∉ ds2.d_oURL ∧
        ds2.d_oVarName ≠ [] ∧ '[' ∉ ds2.d_oVarName ∧
        ds2.d_oBandExpr.head? = some '[') ∧
    (∀ (classify : Str → dim_spec) (ds : DODSDataset),
      ∃ ds2, parse_input classify ds ("U?V[0:2][lat][lon]".toList) = some (.ok ds2) ∧
        ds2.d_oURL = "U".toList ∧ ds2.d_oVarName = "V".toList ∧
        ds2.d_oBandExpr = "[0:2][lat][lon]".toList) := by
  constructor
  · intro classify ds ds2 filename h
    obtain ⟨url, var, rest, spec, hfile, hq, hu, hb, hv, -, hds⟩ :=
      parse_input_fuel_ok _ classify ds ds2 filename h
    subst hds
    simp [store_locator, hfile, hq, hu, hb, hv]
  · intro classify ds
    have h := parse_input_of_groups classify ds ['U'] ['V']
      ["0:2".toList, "lat".toList, "lon".toList] (by decide) (by decide) (by decide) (by decide)
      (by decide) (by decide)
    exact ⟨_, h, rfl, rfl, rfl⟩

/-- The acceptance of `http://h/d?sst[0][lat][lon]` and the decomposition C1
gives for it. -/
theorem parse_input_reassembles_witness :
    parse_input dim_spec.parse DODSDataset.fresh ("http://h/d?sst[0][lat][lon]".toList)
        = some (.ok (store_locator DODSDataset.fresh ("http://h/d".toList) ("sst".toList)
            ("[0][lat][lon]".toList) [⟨dim_type.index, 0, 0⟩, ⟨dim_type.lat, 0, 0⟩,
              ⟨dim_type.lon, 0, 0⟩])) ∧
      "http://h/d?sst[0][lat][lon]".toList
        = "http://h/d".toList ++ ['?'] ++ "sst".toList ++ "[0][lat][lon]".toList :=
  ⟨by rfl,
   (parse_input_reassembles.1 dim_spec.parse DODSDataset.fresh
      (store_locator DODSDataset.fresh ("http://h/d".toList) ("sst".toList)
        ("[0][lat][lon]".toList) [⟨dim_type.index, 0, 0⟩, ⟨dim_type.lat, 0, 0⟩,
          ⟨dim_type.lon, 0, 0⟩])
      ("http://h/d?sst[0][lat][lon]".toList) (by rfl)).1⟩

/-- C2. On a locator whose band expression is `[g1]...[gn]` with `n ≥ 1` and no
bracket inside any group, `parse_input` returns (so its loop terminates within
the fuel) and `d_oBandSpec` has grown by exactly the `n` classifications of the
texts `[g1]`, ..., `[gn]`, in the order written; this holds for every
classifier.  With the classifier of the spec, `[lat]` is a Latitude, `[lon]` a
Longitude, `[7]` the Index 7, `[0:2]` the Range from 0 to 2 and `[x]` is
Unknown, and `U?V[0:2][lat][lon]` gives Range(0,2), Latitude, Longitude. -/
theorem parse_input_groups_in_order :
    (∀ (classify : Str → dim_spec) (ds : DODSDataset) (url var : Str) (gs : List Str),
      url ≠ [] → '?' ∉ url → var ≠ [] → '[' ∉ var → gs ≠ [] →
      (∀ g ∈ gs, '[' ∉ g ∧ ']' ∉ g) →
      ∃ ds2, parse_input classify ds (url ++ '?' :: var ++ bracket_groups gs) = some (.ok ds2) ∧
        ds2.d_oBandSpec = ds.d_oBandSpec ++ gs.map (fun g => classify ('[' :: g ++ [']'])) ∧
        ds2.d_oBandSpec.length = ds.d_oBandSpec.length + gs.length) ∧
    ((dim_spec.parse ("[lat]".toList)).type = dim_type.lat ∧
      (dim_spec.parse ("[lon]".toList)).type = dim_type.lon ∧
      dim_spec.parse ("[7]".toList) = ⟨dim_type.index, 7, 7⟩ ∧
      dim_spec.parse ("[0:2]".toList) = ⟨dim_type.range, 0, 2⟩ ∧
      (dim_spec.parse ("[x]".toList)).type = dim_type.unknown) ∧
    (∃ ds2 lat lon, parse_input dim_spec.parse DODSDataset.fresh ("U?V[0:2][lat][lon]".toList)
          = some (.ok ds2) ∧
        ds2.d_oBandSpec = [⟨dim_type.range, 0, 2⟩, lat, lon] ∧
        lat.type = dim_type.lat ∧ lon.type = dim_type.lon) := by
  refine ⟨?_, by decide, ?_⟩
  · intro classify ds url var gs hu hq hv hb hgs hg
    refine ⟨_, parse_input_of_groups classify ds url var gs hu hq hv hb hgs hg, rfl, ?_⟩
    simp [store_locator]
  · exact ⟨_, _, _, rfl, rfl, rfl, rfl⟩

/-- The two groups of `U?V[lat][lon]` are classified in the order written. -/
theorem parse_input_groups_in_order_witness :
    ∃ ds2, parse_input dim_spec.parse DODSDataset.fresh
        ("U".toList ++ '?' :: "V".toList ++ bracket_groups ["lat".toList, "lon".toList])
          = some (.ok ds2) ∧
      ds2.d_oBandSpec = DODSDataset.fresh.d_oBandSpec ++
        ["lat".toList, "lon".toList].map (fun g => dim_spec.parse ('[' :: g ++ [']'])) ∧
      ds2.d_oBandSpec.length = DODSDataset.fresh.d_oBandSpec.length + 2 :=
  parse_input_groups_in_order.1 dim_spec.parse DODSDataset.fresh ("U".toList) ("V".toList)
    ["lat".toList, "lon".toList] (by decide) (by decide) (by decide) (by decide) (by decide)
    (by decide)

/-- C10. A locator without a question mark makes `parse_input` throw the Error
"Failed to find '?' delimiter", whatever the classifier and the dataset are. -/
theorem parse_input_no_question_mark (classify : Str → dim_spec) (ds : DODSDataset)
    (filename : Str) (h : '?' ∉ filename) :
    parse_input classify ds filename
      = some (.error (Exn.Error (Msg.no_question_mark filename))) := by
  have hf : find filename '?' 0 = none := by
    simpa [find] using findAux_none '?' filename 0 h
  simp [parse_input, parse_input_fuel, hf]

/-- The locator `http://h/d[lat][lon]` has no question mark and is refused. -/
theorem parse_input_no_question_mark_witness :
    '?' ∉ "http://h/d[lat][lon]".toList ∧
      parse_input dim_spec.parse DODSDataset.fresh ("http://h/d[lat][lon]".toList)
        = some (.error (Exn.Error (Msg.no_question_mark ("http://h/d[lat][lon]".toList)))) :=
  ⟨by decide, parse_input_no_question_mark dim_spec.parse DODSDataset.fresh
    ("http://h/d[lat][lon]".toList) (by decide)⟩

/-! ### The constraint builder -/

/-- The character of a decimal digit is a digit. -/
theorem digitChar_isDigit (d : Nat) (h : d < 10) : (Nat.digitChar d).isDigit = true := by
  interval_cases d <;> decide

/-- The decimal digits of a natural number are digit characters. -/
theorem toDigitsCore_isDigit (fuel : Nat) :
    ∀ (n : Nat) (ds : List Char), (∀ c ∈ ds, c.isDigit = true) →
      ∀ c ∈ Nat.toDigitsCore 10 fuel n ds, c.isDigit = true := by
  induction fuel with
  | zero => intro n ds h c hc; exact h c (by simpa [Nat.toDigitsCore] using hc)
  | succ f ih =>
    intro n ds h c hc
    have hd : (Nat.digitChar (n % 10)).isDigit = true :=
      digitChar_isDigit _ (Nat.mod_lt _ (by decide))
    have hcons : ∀ c ∈ Nat.digitChar (n % 10) :: ds, c.isDigit = true := by
      intro c hc
      rcases List.mem_cons.mp hc with rfl | hc
      · exact hd
      · exact h c hc
    simp only [Nat.toDigitsCore] at hc
    split at hc
    · exact hcons c hc
    · exact ih _ _ hcons c hc

/-- The text of an `int` is made of digits and a minus sign. -/
theorem int_text_chars (n : Int) : ∀ c ∈ int_text n, c.isDigit = true ∨ c = '-' := by
  intro c hc
  cases n with
  | ofNat m =>
    left
    exact toDigitsCore_isDigit _ _ [] (by simp) c (by simpa [int_text, Nat.toDigits] using hc)
  | negSucc m =>
    simp only [int_text, List.mem_cons] at hc
    rcases hc with rfl | hc
    · right; rfl
    · left
      exact toDigitsCore_isDigit _ _ [] (by simp) c (by simpa [Nat.toDigits] using hc)

/-- The text of an `int` holds no bracket. -/
theorem int_text_no_bracket (n : Int) : '[' ∉ int_text n ∧ ']' ∉ int_text n := by
  constructor <;> intro h <;> rcases int_text_chars n _ h with h | h <;> revert h <;> decide

/-- The groups of two lists, one after the other. -/
theorem bracket_groups_append (a b : List Str) :
    bracket_groups (a ++ b) = bracket_groups a ++ bracket_groups b := by
  induction a with
  | nil => simp [bracket_groups]
  | cons g gs ih => simp [bracket_groups, ih]

/-- On specifiers without Unknown the loop of `BuildConstraint` ends normally,
the stream having received one bracket group per specifier. -/
theorem constraint_loop_ok (be : Str) (x y xs ys b : Int) (spec : List dim_spec) :
    ∀ oss : Str, (∀ i ∈ spec, i.type ≠ dim_type.unknown) →
      constraint_loop be x y xs ys b spec oss
        = .ok (oss ++ bracket_groups (spec.map (group_body x y xs ys b))) := by
  induction spec with
  | nil => intro oss _; simp [constraint_loop, bracket_groups]
  | cons i rest ih =>
    intro oss h
    have hi := h i (by simp)
    have hrest : ∀ j ∈ rest, j.type ≠ dim_type.unknown := fun j hj => h j (by simp [hj])
    cases ht : i.type with
    | unknown => exact absurd ht hi
    | index => simp [constraint_loop, ht, ih _ hrest, group_body, bracket_groups]
    | range => simp [constraint_loop, ht, ih _ hrest, group_body, bracket_groups]
    | lat => simp [constraint_loop, ht, ih _ hrest, group_body, bracket_groups]
    | lon => simp [constraint_loop, ht, ih _ hrest, group_body, bracket_groups]

/-- No text written between brackets holds a bracket. -/
theorem group_body_no_bracket (x y xs ys b : Int) (i : dim_spec) :
    '[' ∉ group_body x y xs ys b i ∧ ']' ∉ group_body x y xs ys b i := by
  have h1 := int_text_no_bracket
  cases ht : i.type <;> simp [group_body, ht, (h1 _).1, (h1 _).2]

/-- The constraint returned for an in-bounds request on specifiers without
Unknown. -/
theorem BuildConstraint_ok (ds : DODSDataset) (x y xs ys b : Int)
    (hb : ¬ (x + xs - 1 > ds.nRasterXSize ∨ y + ys - 1 > ds.nRasterYSize))
    (hu : ∀ i ∈ ds.d_oBandSpec, i.type ≠ dim_type.unknown) :
    BuildConstraint ds x y xs ys b
      = .ok (ds.d_oVarName ++ bracket_groups (ds.d_oBandSpec.map (group_body x y xs ys b))) := by
  unfold BuildConstraint
  rw [if_neg hb, constraint_loop_ok _ _ _ _ _ _ _ _ hu]
  simp

/-- C3, as amended. For a dimension-spec sequence without Unknown specifier and
a request that passes the bounds check, `BuildConstraint` returns the variable
name followed by exactly one bracket group per specifier, in the order of the
specifiers and with nothing between the groups (no text between brackets holds
a bracket); the group at the position of an Index specifier holds the decimal
text of its stored value, which depends on nothing in the request. -/
theorem BuildConstraint_one_group_per_specifier (ds : DODSDataset) (x y xs ys b : Int)
    (hb : ¬ (x + xs - 1 > ds.nRasterXSize ∨ y + ys - 1 > ds.nRasterYSize))
    (hu : ∀ i ∈ ds.d_oBandSpec, i.type ≠ dim_type.unknown) :
    ∃ bodies : List Str, bodies.length = ds.d_oBandSpec.length ∧
      (∀ body ∈ bodies, '[' ∉ body ∧ ']' ∉ body) ∧
      BuildConstraint ds x y xs ys b = .ok (ds.d_oVarName ++ bracket_groups bodies) ∧
      ∀ (k : Nat) (i : dim_spec), ds.d_oBandSpec[k]? = some i → i.type = dim_type.index →
        bodies[k]? = some (int_text i.start) := by
  refine ⟨ds.d_oBandSpec.map (group_body x y xs ys b), by simp, ?_,
    BuildConstraint_ok ds x y xs ys b hb hu, ?_⟩
  · intro body hbody
    obtain ⟨i, -, rfl⟩ := List.mem_map.mp hbody
    exact group_body_no_bracket x y xs ys b i
  · intro k i hk ht
    simp [List.getElem?_map, hk, group_body, ht]

/-- On a 512 by 256 raster with the sequence Index 3, Latitude, Longitude, the
request (4, 0, 4, 1) for band 1 passes the check and C3 applies. -/
theorem BuildConstraint_one_group_per_specifier_witness :
    ∃ bodies : List Str, bodies.length = 3 ∧
      (∀ body ∈ bodies, '[' ∉ body ∧ ']' ∉ body) ∧
      BuildConstraint (raster_dataset ['V']
          [⟨dim_type.index, 3, 3⟩, ⟨dim_type.lat, 0, 0⟩, ⟨dim_type.lon, 0, 0⟩] 512 256) 4 0 4 1 1
        = .ok (['V'] ++ bracket_groups bodies) ∧
      ∀ (k : Nat) (i : dim_spec),
        [(⟨dim_type.index, 3, 3⟩ : dim_spec), ⟨dim_type.lat, 0, 0⟩, ⟨dim_type.lon, 0, 0⟩][k]?
            = some i → i.type = dim_type.index → bodies[k]? = some (int_text i.start) :=
  BuildConstraint_one_group_per_specifier (raster_dataset ['V']
    [⟨dim_type.index, 3, 3⟩, ⟨dim_type.lat, 0, 0⟩, ⟨dim_type.lon, 0, 0⟩] 512 256) 4 0 4 1 1
    (by decide) (by decide)

/-- C3 as stated fails: with the one-element sequence Unknown on a 512 by 256
raster, the request (0, 0, 1, 1) for band 1 passes the bounds check and
`BuildConstraint` throws an InternalErr instead of returning a constraint. -/
theorem BuildConstraint_unknown_throws :
    ¬ ((0 : Int) + 1 - 1 > 512 ∨ (0 : Int) + 1 - 1 > 256) ∧
      BuildConstraint (raster_dataset ['V'] [⟨dim_type.unknown, 0, 0⟩] 512 256) 0 0 1 1 1
        = .error (Exn.InternalErr (Msg.sub_expression [])) ∧
      ∀ out : Str,
        BuildConstraint (raster_dataset ['V'] [⟨dim_type.unknown, 0, 0⟩] 512 256) 0 0 1 1 1
          ≠ .ok out := by
  refine ⟨by decide, by rfl, ?_⟩
  intro out h
  have e : BuildConstraint (raster_dataset ['V'] [⟨dim_type.unknown, 0, 0⟩] 512 256) 0 0 1 1 1
      = .error (Exn.InternalErr (Msg.sub_expression [])) := by rfl
  rw [e] at h
  cases h

/-- C4. At a Longitude specifier the loop of `BuildConstraint` appends
`[xOffset:xOffset+xSize-1]` to the stream and goes on, at a Latitude specifier
it appends `[yOffset:yOffset+ySize-1]`; hence, for a request that passes the
bounds check on a sequence without Unknown specifier, the returned constraint
has these texts in the groups at the Longitude and Latitude positions.  On a
512 by 256 raster with xOffset 4 and xSize 4 the longitude group is `[4:7]`. -/
theorem BuildConstraint_lon_lat_groups :
    (∀ (be : Str) (x y xs ys b : Int) (i : dim_spec) (rest : List dim_spec) (oss : Str),
      (i.type = dim_type.lon →
        constraint_loop be x y xs ys b (i :: rest) oss
          = constraint_loop be x y xs ys b rest
              (oss ++ ['['] ++ int_text x ++ [':'] ++ int_text (x + xs - 1) ++ [']'])) ∧
      (i.type = dim_type.lat →
        constraint_loop be x y xs ys b (i :: rest) oss
          = constraint_loop be x y xs ys b rest
              (oss ++ ['['] ++ int_text y ++ [':'] ++ int_text (y + ys - 1) ++ [']']))) ∧
    (∀ (ds : DODSDataset) (x y xs ys b : Int),
      ¬ (x + xs - 1 > ds.nRasterXSize ∨ y + ys - 1 > ds.nRasterYSize) →
      (∀ i ∈ ds.d_oBandSpec, i.type ≠ dim_type.unknown) →
      ∃ bodies : List Str, bodies.length = ds.d_oBandSpec.length ∧
        BuildConstraint ds x y xs ys b = .ok (ds.d_oVarName ++ bracket_groups bodies) ∧
        ∀ (k : Nat) (i : dim_spec), ds.d_oBandSpec[k]? = some i →
          (i.type = dim_type.lon →
            bodies[k]? = some (int_text x ++ [':'] ++ int_text (x + xs - 1))) ∧
          (i.type = dim_type.lat →
            bodies[k]? = some (int_text y ++ [':'] ++ int_text (y + ys - 1)))) ∧
    (['['] ++ int_text 4 ++ [':'] ++ int_text (4 + 4 - 1) ++ [']'] = "[4:7]".toList ∧
      BuildConstraint (raster_dataset ['V'] [⟨dim_type.lat, 0, 0⟩, ⟨dim_type.lon, 0, 0⟩] 512 256)
          4 0 4 256 1 = .ok ("V[0:255][4:7]".toList)) := by
  refine ⟨?_, ?_, by decide⟩
  · intro be x y xs ys b i rest oss
    constructor
    · intro ht
      rw [constraint_loop.eq_2]
      simp only [ht]
      rw [add_comm xs x]
    · intro ht
      rw [constraint_loop.eq_2]
      simp only [ht]
      rw [add_comm ys y]
  · intro ds x y xs ys b hb hu
    refine ⟨ds.d_oBandSpec.map (group_body x y xs ys b), by simp,
      BuildConstraint_ok ds x y xs ys b hb hu, ?_⟩
    intro k i hk
    constructor
    · intro ht
      simp [List.getElem?_map, hk, group_body, ht, add_comm xs x]
    · intro ht
      simp [List.getElem?_map, hk, group_body, ht, add_comm ys y]

/-- The request (4, 10, 4, 2) on a 512 by 256 raster with the sequence
Latitude, Longitude: the two groups are `10:11` and `4:7`. -/
theorem BuildConstraint_lon_lat_groups_witness :
    ∃ bodies : List Str, bodies.length = 2 ∧
      BuildConstraint (raster_dataset ['V'] [⟨dim_type.lat, 0, 0⟩, ⟨dim_type.lon, 0, 0⟩] 512 256)
          4 10 4 2 1 = .ok (['V'] ++ bracket_groups bodies) ∧
      ∀ (k : Nat) (i : dim_spec),
        [(⟨dim_type.lat, 0, 0⟩ : dim_spec), ⟨dim_type.lon, 0, 0⟩][k]? = some i →
          (i.type = dim_type.lon →
            bodies[k]? = some (int_text 4 ++ [':'] ++ int_text (4 + 4 - 1))) ∧
          (i.type = dim_type.lat →
            bodies[k]? = some (int_text 10 ++ [':'] ++ int_text (10 + 2 - 1))) :=
  BuildConstraint_lon_lat_groups.2.1
    (raster_dataset ['V'] [⟨dim_type.lat, 0, 0⟩, ⟨dim_type.lon, 0, 0⟩] 512 256) 4 10 4 2 1
    (by decide) (by decide)

/-- C5. At a Range specifier the loop of `BuildConstraint` appends the single
index `start + b - 1` between brackets and goes on, for every band number `b`;
hence, for a request that passes the bounds check on a sequence without Unknown
specifier, the group at the position of the Range specifier holds the decimal
text of `start + b - 1`.  For Range(10,12) and band 2 the group is `[11]`. -/
theorem BuildConstraint_range_group :
    (∀ (be : Str) (x y xs ys b : Int) (i : dim_spec) (rest : List dim_spec) (oss : Str),
      i.type = dim_type.range →
        constraint_loop be x y xs ys b (i :: rest) oss
          = constraint_loop be x y xs ys b rest
              (oss ++ ['['] ++ int_text (i.start + b - 1) ++ [']'])) ∧
    (∀ (ds : DODSDataset) (x y xs ys b : Int),
      ¬ (x + xs - 1 > ds.nRasterXSize ∨ y + ys - 1 > ds.nRasterYSize) →
      (∀ i ∈ ds.d_oBandSpec, i.type ≠ dim_type.unknown) →
      ∃ bodies : List Str, bodies.length = ds.d_oBandSpec.length ∧
        BuildConstraint ds x y xs ys b = .ok (ds.d_oVarName ++ bracket_groups bodies) ∧
        ∀ (k : Nat) (i : dim_spec), ds.d_oBandSpec[k]? = some i → i.type = dim_type.range →
          bodies[k]? = some (int_text (i.start + b - 1))) ∧
    (['['] ++ int_text (10 + 2 - 1) ++ [']'] = "[11]".toList ∧
      BuildConstraint (raster_dataset ['V']
          [⟨dim_type.range, 10, 12⟩, ⟨dim_type.lat, 0, 0⟩, ⟨dim_type.lon, 0, 0⟩] 512 256)
          0 0 512 256 2 = .ok ("V[11][0:255][0:511]".toList)) := by
  refine ⟨?_, ?_, by decide⟩
  · intro be x y xs ys b i rest oss ht
    rw [constraint_loop.eq_2]
    simp only [ht]
  · intro ds x y xs ys b hb hu
    refine ⟨ds.d_oBandSpec.map (group_body x y xs ys b), by simp,
      BuildConstraint_ok ds x y xs ys b hb hu, ?_⟩
    intro k i hk ht
    simp [List.getElem?_map, hk, group_body, ht]

/-- Band 3 of the sequence Range(10,12), Latitude, Longitude on a 512 by 256
raster: the group of the Range specifier holds the text of 10 + 3 - 1. -/
theorem BuildConstraint_range_group_witness :
    ∃ bodies : List Str, bodies.length = 3 ∧
      BuildConstraint (raster_dataset ['V']
          [⟨dim_type.range, 10, 12⟩, ⟨dim_type.lat, 0, 0⟩, ⟨dim_type.lon, 0, 0⟩] 512 256)
          0 0 512 256 3 = .ok (['V'] ++ bracket_groups bodies) ∧
      ∀ (k : Nat) (i : dim_spec),
        [(⟨dim_type.range, 10, 12⟩ : dim_spec), ⟨dim_type.lat, 0, 0⟩, ⟨dim_type.lon, 0, 0⟩][k]?
            = some i → i.type = dim_type.range →
          bodies[k]? = some (int_text (i.start + 3 - 1)) :=
  BuildConstraint_range_group.2.1
    (raster_dataset ['V']
      [⟨dim_type.range, 10, 12⟩, ⟨dim_type.lat, 0, 0⟩, ⟨dim_type.lon, 0, 0⟩] 512 256)
    0 0 512 256 3 (by decide) (by decide)

/-- C6. `BuildConstraint` throws the Error "The offset and/or size values
exceed the size of the layer" exactly when `xOffset+xSize-1` is greater than the
raster width or `yOffset+ySize-1` is greater than the raster height, and it
throws an exception of class Error in no other case; as this holds for every
dimension-spec sequence, nothing of the sequence has been emitted when it is
thrown.  With a raster width of 512 the request xOffset 510, xSize 4 throws,
whatever the rest of the request and of the dataset is. -/
theorem BuildConstraint_bounds_check :
    (∀ (ds : DODSDataset) (x y xs ys b : Int),
      (BuildConstraint ds x y xs ys b = .error (Exn.Error (Msg.exceeds_layer ds.d_oVarName b))
        ↔ (x + xs - 1 > ds.nRasterXSize ∨ y + ys - 1 > ds.nRasterYSize)) ∧
      ((∃ msg, BuildConstraint ds x y xs ys b = .error (Exn.Error msg))
        ↔ (x + xs - 1 > ds.nRasterXSize ∨ y + ys - 1 > ds.nRasterYSize))) ∧
    (∀ (var : Str) (spec : List dim_spec) (height y ys b : Int),
      BuildConstraint (raster_dataset var spec 512 height) 510 y 4 ys b
        = .error (Exn.Error (Msg.exceeds_layer var b))) := by
  have loop_no_error : ∀ (be : Str) (x y xs ys b : Int) (spec : List dim_spec) (oss : Str)
      (msg : Msg), constraint_loop be x y xs ys b spec oss ≠ .error (Exn.Error msg) := by
    intro be x y xs ys b spec
    induction spec with
    | nil => intro oss msg h; simp [constraint_loop] at h
    | cons i rest ih =>
      intro oss msg h
      rw [constraint_loop.eq_2] at h
      cases ht : i.type <;> simp only [ht] at h
      · cases h
      · exact ih _ _ h
      · exact ih _ _ h
      · exact ih _ _ h
      · exact ih _ _ h
  constructor
  · intro ds x y xs ys b
    by_cases hb : x + xs - 1 > ds.nRasterXSize ∨ y + ys - 1 > ds.nRasterYSize
    · have e : BuildConstraint ds x y xs ys b
          = .error (Exn.Error (Msg.exceeds_layer ds.d_oVarName b)) := by
        unfold BuildConstraint; rw [if_pos hb]
      exact ⟨⟨fun _ => hb, fun _ => e⟩, ⟨fun _ => hb, fun _ => ⟨_, e⟩⟩⟩
    · have e : BuildConstraint ds x y xs ys b
          = constraint_loop ds.d_oBandExpr x y xs ys b ds.d_oBandSpec ([] ++ ds.d_oVarName) := by
        unfold BuildConstraint; rw [if_neg hb]
      refine ⟨⟨fun h => ?_, fun h => absurd h hb⟩, ⟨fun h => ?_, fun h => absurd h hb⟩⟩
      · rw [e] at h; exact absurd h (loop_no_error _ _ _ _ _ _ _ _ _)
      · obtain ⟨msg, h⟩ := h
        rw [e] at h; exact absurd h (loop_no_error _ _ _ _ _ _ _ _ _)
  · intro var spec height y ys b
    unfold BuildConstraint
    rw [if_pos (Or.inl (by simp [raster_dataset]))]
    rfl

/-- C7 fails on the code: on a 512 by 256 raster with the sequence Latitude,
Longitude, the request xOffset 509, xSize 4, yOffset 0, ySize 1 for band 1 has
non-negative offsets and positive sizes, its last column index 512 is not a
valid index of a 512 wide raster, and `BuildConstraint` returns the constraint
`V[0:0][509:512]` instead of throwing; likewise for the last line index 256 of
the request yOffset 253, ySize 4. -/
theorem BuildConstraint_accepts_index_past_end :
    (BuildConstraint (raster_dataset ['V'] [⟨dim_type.lat, 0, 0⟩, ⟨dim_type.lon, 0, 0⟩] 512 256)
        509 0 4 1 1 = .ok ("V[0:0][509:512]".toList) ∧
      ¬ ((509 : Int) + 4 - 1 ≤ 512 - 1)) ∧
    (BuildConstraint (raster_dataset ['V'] [⟨dim_type.lat, 0, 0⟩, ⟨dim_type.lon, 0, 0⟩] 512 256)
        0 253 1 4 1 = .ok ("V[253:256][0:0]".toList) ∧
      ¬ ((253 : Int) + 4 - 1 ≤ 256 - 1)) := by
  decide

/-! ### The validation of the layer specification -/

/-- The counting loop throws when it meets an Unknown specifier. -/
theorem count_loop_unknown (be : Str) (spec : List dim_spec) :
    ∀ c : Counts, 0 < occurrences dim_type.unknown spec →
      count_loop be spec c = .error (Exn.Error (Msg.sub_expression be)) := by
  induction spec with
  | nil => intro c h; simp [occurrences] at h
  | cons i rest ih =>
    intro c h
    rw [count_loop.eq_2]
    cases ht : i.type with
    | unknown => rfl
    | index =>
      have hr : 0 < occurrences dim_type.unknown rest := by
        simpa [occurrences, List.countP_cons, ht] using h
      simpa using ih _ hr
    | range =>
      have hr : 0 < occurrences dim_type.unknown rest := by
        simpa [occurrences, List.countP_cons, ht] using h
      simpa using ih _ hr
    | lat =>
      have hr : 0 < occurrences dim_type.unknown rest := by
        simpa [occurrences, List.countP_cons, ht] using h
      simpa using ih _ hr
    | lon =>
      have hr : 0 < occurrences dim_type.unknown rest := by
        simpa [occurrences, List.countP_cons, ht] using h
      simpa using ih _ hr

/-- Without Unknown specifier the counting loop adds to each counter the number
of specifiers of its type. -/
theorem count_loop_counts (be : Str) (spec : List dim_spec) :
    ∀ c : Counts, occurrences dim_type.unknown spec = 0 →
      count_loop be spec c = .ok
        ⟨c.lat_count + occurrences dim_type.lat spec,
         c.lon_count + occurrences dim_type.lon spec,
         c.index_count + occurrences dim_type.index spec,
         c.range_count + occurrences dim_type.range spec⟩ := by
  induction spec with
  | nil => intro c _; simp [count_loop, occurrences]
  | cons i rest ih =>
    intro c h
    rw [count_loop.eq_2]
    cases ht : i.type with
    | unknown => simp [occurrences, List.countP_cons, ht] at h
    | index =>
      have hr : occurrences dim_type.unknown rest = 0 := by
        simpa [occurrences, List.countP_cons, ht] using h
      simp only [ih _ hr, occurrences, List.countP_cons, ht]
      simp; omega
    | range =>
      have hr : occurrences dim_type.unknown rest = 0 := by
        simpa [occurrences, List.countP_cons, ht] using h
      simp only [ih _ hr, occurrences, List.countP_cons, ht]
      simp; omega
    | lat =>
      have hr : occurrences dim_type.unknown rest = 0 := by
        simpa [occurrences, List.countP_cons, ht] using h
      simp only [ih _ hr, occurrences, List.countP_cons, ht]
      simp; omega
    | lon =>
      have hr : occurrences dim_type.unknown rest = 0 := by
        simpa [occurrences, List.countP_cons, ht] using h
      simp only [ih _ hr, occurrences, List.countP_cons, ht]
      simp; omega

/-- The checks `verify_layer_spec` makes once the counting loop has ended, in
terms of the numbers of occurrences. -/
theorem verify_layer_spec_eq (ds : DODSDataset) (hne : ds.d_oBandSpec ≠ [])
    (hu : occurrences dim_type.unknown ds.d_oBandSpec = 0) :
    verify_layer_spec ds =
      if (occurrences dim_type.lat ds.d_oBandSpec : Int) ≠ 1 then
        .error (Exn.Error (Msg.missing_lat ds.d_oBandExpr))
      else if (occurrences dim_type.lon ds.d_oBandSpec : Int) ≠ 1 then
        .error (Exn.Error (Msg.missing_lon ds.d_oBandExpr))
      else if (occurrences dim_type.range ds.d_oBandSpec : Int) > 1 then
        .error (Exn.Error (Msg.many_ranges ds.d_oBandExpr))
      else if (occurrences dim_type.index ds.d_oBandSpec : Int)
          + (occurrences dim_type.range ds.d_oBandSpec : Int) + 2 ≠ ds.d_iVarRank then
        .error (Exn.Error (Msg.rank_mismatch ds.d_oBandExpr ds.d_oVarName ds.d_iVarRank))
      else .ok () := by
  have hl : ¬ ds.d_oBandSpec.length = 0 := fun e => hne (List.length_eq_zero.mp e)
  unfold verify_layer_spec
  rw [if_neg hl, count_loop_counts _ _ _ hu]
  simp only [Int.zero_add]

/-- An empty dimension-spec sequence is an InternalErr. -/
theorem verify_layer_spec_empty (ds : DODSDataset) (h : ds.d_oBandSpec = []) :
    verify_layer_spec ds = .error (Exn.InternalErr Msg.not_parsed) := by
  simp [verify_layer_spec, h]

/-- A sequence with an Unknown specifier is refused. -/
theorem verify_layer_spec_unknown (ds : DODSDataset)
    (h : 0 < occurrences dim_type.unknown ds.d_oBandSpec) :
    verify_layer_spec ds = .error (Exn.Error (Msg.sub_expression ds.d_oBandExpr)) := by
  have hl : ¬ ds.d_oBandSpec.length = 0 := by
    intro e
    rw [List.length_eq_zero.mp e] at h
    simp [occurrences] at h
  unfold verify_layer_spec
  rw [if_neg hl, count_loop_unknown _ _ _ h]

/-- C8. `verify_layer_spec` throws for every dataset whose dimension-spec
sequence has no or at least two Latitude specifiers, no or at least two
Longitude specifiers, more than one Range specifier, or an Unknown specifier;
the rank of the variable, a member of the dataset, is arbitrary. -/
theorem verify_layer_spec_rejects_counts (ds : DODSDataset)
    (h : occurrences dim_type.lat ds.d_oBandSpec = 0 ∨
      2 ≤ occurrences dim_type.lat ds.d_oBandSpec ∨
      occurrences dim_type.lon ds.d_oBandSpec = 0 ∨
      2 ≤ occurrences dim_type.lon ds.d_oBandSpec ∨
      1 < occurrences dim_type.range ds.d_oBandSpec ∨
      0 < occurrences dim_type.unknown ds.d_oBandSpec) :
    ∃ e, verify_layer_spec ds = .error e := by
  by_cases hne : ds.d_oBandSpec = []
  · exact ⟨_, verify_layer_spec_empty ds hne⟩
  by_cases hu : 0 < occurrences dim_type.unknown ds.d_oBandSpec
  · exact ⟨_, verify_layer_spec_unknown ds hu⟩
  have hu0 : occurrences dim_type.unknown ds.d_oBandSpec = 0 := by omega
  rw [verify_layer_spec_eq ds hne hu0]
  by_cases h1 : (occurrences dim_type.lat ds.d_oBandSpec : Int) ≠ 1
  · exact ⟨_, if_pos h1⟩
  rw [if_neg h1]
  by_cases h2 : (occurrences dim_type.lon ds.d_oBandSpec : Int) ≠ 1
  · exact ⟨_, if_pos h2⟩
  rw [if_neg h2]
  by_cases h3 : (occurrences dim_type.range ds.d_oBandSpec : Int) > 1
  · exact ⟨_, if_pos h3⟩
  exfalso
  omega

/-- The sequence Latitude, Latitude, Longitude is refused for every rank, here
rank 3. -/
theorem verify_layer_spec_rejects_counts_witness :
    2 ≤ occurrences dim_type.lat
        [⟨dim_type.lat, 0, 0⟩, ⟨dim_type.lat, 0, 0⟩, ⟨dim_type.lon, 0, 0⟩] ∧
      ∃ e, verify_layer_spec ⟨[], ['V'], [], [⟨dim_type.lat, 0, 0⟩, ⟨dim_type.lat, 0, 0⟩,
        ⟨dim_type.lon, 0, 0⟩], 3, 0, 0, 0, GDALDataType.GDT_Unknown, 0, 0, 0, 0, []⟩ = .error e :=
  ⟨by decide, verify_layer_spec_rejects_counts ⟨[], ['V'], [], [⟨dim_type.lat, 0, 0⟩,
    ⟨dim_type.lat, 0, 0⟩, ⟨dim_type.lon, 0, 0⟩], 3, 0, 0, 0, GDALDataType.GDT_Unknown,
    0, 0, 0, 0, []⟩ (Or.inr (Or.inl (by decide)))⟩

/-- C9. `verify_layer_spec` throws for every dataset in which the number of
Index specifiers plus the number of Range specifiers plus 2 is not the rank
`d_iVarRank` of the variable. -/
theorem verify_layer_spec_rejects_rank (ds : DODSDataset)
    (h : (occurrences dim_type.index ds.d_oBandSpec : Int)
      + (occurrences dim_type.range ds.d_oBandSpec : Int) + 2 ≠ ds.d_iVarRank) :
    ∃ e, verify_layer_spec ds = .error e := by
  by_cases hne : ds.d_oBandSpec = []
  · exact ⟨_, verify_layer_spec_empty ds hne⟩
  by_cases hu : 0 < occurrences dim_type.unknown ds.d_oBandSpec
  · exact ⟨_, verify_layer_spec_unknown ds hu⟩
  have hu0 : occurrences dim_type.unknown ds.d_oBandSpec = 0 := by omega
  rw [verify_layer_spec_eq ds hne hu0]
  by_cases h1 : (occurrences dim_type.lat ds.d_oBandSpec : Int) ≠ 1
  · exact ⟨_, if_pos h1⟩
  rw [if_neg h1]
  by_cases h2 : (occurrences dim_type.lon ds.d_oBandSpec : Int) ≠ 1
  · exact ⟨_, if_pos h2⟩
  rw [if_neg h2]
  by_cases h3 : (occurrences dim_type.range ds.d_oBandSpec : Int) > 1
  · exact ⟨_, if_pos h3⟩
  rw [if_neg h3, if_pos h]
  exact ⟨_, rfl⟩

/-- The sequence Range(0,2), Latitude, Longitude accounts for three dimensions
and is refused for a variable of rank 4 with the rank message. -/
theorem verify_layer_spec_rejects_rank_witness :
    verify_layer_spec ⟨[], ['V'], [], [⟨dim_type.range, 0, 2⟩, ⟨dim_type.lat, 0, 0⟩,
        ⟨dim_type.lon, 0, 0⟩], 4, 0, 0, 0, GDALDataType.GDT_Unknown, 0, 0, 0, 0, []⟩
        = .error (Exn.Error (Msg.rank_mismatch [] ['V'] 4)) ∧
      ∃ e, verify_layer_spec ⟨[], ['V'], [], [⟨dim_type.range, 0, 2⟩, ⟨dim_type.lat, 0, 0⟩,
        ⟨dim_type.lon, 0, 0⟩], 4, 0, 0, 0, GDALDataType.GDT_Unknown, 0, 0, 0, 0, []⟩ = .error e :=
  ⟨by rfl, verify_layer_spec_rejects_rank ⟨[], ['V'], [], [⟨dim_type.range, 0, 2⟩,
    ⟨dim_type.lat, 0, 0⟩, ⟨dim_type.lon, 0, 0⟩], 4, 0, 0, 0, GDALDataType.GDT_Unknown,
    0, 0, 0, 0, []⟩ (by decide)⟩

/-! ### The locator parser: refused locators -/

/-- C11. A locator that has a question mark and no opening bracket after its
first question mark makes `parse_input` throw: the Error "Failed to find '['
delimiter", or the Error "Failed to find a DAP server URL" when nothing
precedes the question mark.  Opening brackets before the question mark change
nothing: `[U]?V` is refused for its missing bracket. -/
theorem parse_input_no_bracket :
    (∀ (classify : Str → dim_spec) (ds : DODSDataset) (url rest : Str),
      '?' ∉ url → '[' ∉ rest →
      parse_input classify ds (url ++ '?' :: rest)
        = some (.error (Exn.Error
            (if url = [] then Msg.no_url (url ++ '?' :: rest)
             else Msg.no_bracket (url ++ '?' :: rest))))) ∧
    (∀ (classify : Str → dim_spec) (ds : DODSDataset),
      parse_input classify ds ("[U]?V".toList)
        = some (.error (Exn.Error (Msg.no_bracket ("[U]?V".toList))))) := by
  have main : ∀ (classify : Str → dim_spec) (ds : DODSDataset) (url rest : Str),
      '?' ∉ url → '[' ∉ rest →
      parse_input classify ds (url ++ '?' :: rest)
        = some (.error (Exn.Error
            (if url = [] then Msg.no_url (url ++ '?' :: rest)
             else Msg.no_bracket (url ++ '?' :: rest)))) := by
    intro classify ds url rest hq hb
    have hfq : find (url ++ '?' :: rest) '?' 0 = some url.length := find_zero_hit '?' url rest hq
    have hsu : substr (url ++ '?' :: rest) 0 url.length = some url := by simp [substr]
    have hfb : find (url ++ '?' :: rest) '[' (url.length + 1) = none := by
      have := findAux_none '[' rest (url.length + 1) hb
      simpa [find] using this
    unfold parse_input parse_input_fuel
    simp only [hfq, hsu]
    by_cases hu : url = []
    · simp [hu]
    · have hul : ¬ url.length = 0 := fun e => hu (List.length_eq_zero.mp e)
      simp only [hul, if_false, hfb, hu]
  refine ⟨main, ?_⟩
  intro classify ds
  exact main classify ds ("[U]".toList) ['V'] (by decide) (by decide)

/-- The locator `http://h/d?sst` has no bracket after its question mark. -/
theorem parse_input_no_bracket_witness :
    '?' ∉ "http://h/d".toList ∧ '[' ∉ "sst".toList ∧
      parse_input dim_spec.parse DODSDataset.fresh ("http://h/d".toList ++ '?' :: "sst".toList)
        = some (.error (Exn.Error
            (if "http://h/d".toList = [] then
               Msg.no_url ("http://h/d".toList ++ '?' :: "sst".toList)
             else Msg.no_bracket ("http://h/d".toList ++ '?' :: "sst".toList)))) :=
  ⟨by decide, by decide,
   parse_input_no_bracket.1 dim_spec.parse DODSDataset.fresh ("http://h/d".toList)
    ("sst".toList) (by decide) (by decide)⟩

/-- C12. A locator whose first opening bracket after the first question mark
immediately follows it makes `parse_input` throw the Error "Failed to find a
variable name", or the Error "Failed to find a DAP server URL" when nothing
precedes the question mark; a locator that starts with a question mark always
makes it throw the latter.  The locator `U?[lat][lon]` is refused for its
missing variable name. -/
theorem parse_input_empty_name_or_url :
    (∀ (classify : Str → dim_spec) (ds : DODSDataset) (url rest : Str),
      '?' ∉ url →
      parse_input classify ds (url ++ '?' :: '[' :: rest)
        = some (.error (Exn.Error
            (if url = [] then Msg.no_url (url ++ '?' :: '[' :: rest)
             else Msg.no_var_name (url ++ '?' :: '[' :: rest))))) ∧
    (∀ (classify : Str → dim_spec) (ds : DODSDataset) (rest : Str),
      parse_input classify ds ('?' :: rest) = some (.error (Exn.Error (Msg.no_url ('?' :: rest))))) ∧
    (∀ (classify : Str → dim_spec) (ds : DODSDataset),
      parse_input classify ds ("U?[lat][lon]".toList)
        = some (.error (Exn.Error (Msg.no_var_name ("U?[lat][lon]".toList))))) := by
  have main : ∀ (classify : Str → dim_spec) (ds : DODSDataset) (url rest : Str),
      '?' ∉ url →
      parse_input classify ds (url ++ '?' :: '[' :: rest)
        = some (.error (Exn.Error
            (if url = [] then Msg.no_url (url ++ '?' :: '[' :: rest)
             else Msg.no_var_name (url ++ '?' :: '[' :: rest)))) := by
    intro classify ds url rest hq
    have hfq : find (url ++ '?' :: '[' :: rest) '?' 0 = some url.length :=
      find_zero_hit '?' url _ hq
    have hsu : substr (url ++ '?' :: '[' :: rest) 0 url.length = some url := by simp [substr]
    have hfb : find (url ++ '?' :: '[' :: rest) '[' (url.length + 1) = some (url.length + 1) := by
      simp [find, findAux]
    have hsv : substr (url ++ '?' :: '[' :: rest) (url.length + 1)
        (url.length + 1 - url.length - 1) = some [] := by
      have e : url.length + 1 - url.length - 1 = 0 := by omega
      simp [substr, e]
    unfold parse_input parse_input_fuel
    simp only [hfq, hsu]
    by_cases hu : url = []
    · simp [hu]
    · have hul : ¬ url.length = 0 := fun e => hu (List.length_eq_zero.mp e)
      simp only [hul, if_false, hfb, hsv, hu]
      simp
  refine ⟨main, ?_, ?_⟩
  · intro classify ds rest
    simp [parse_input, parse_input_fuel, find, findAux, substr]
  · intro classify ds
    exact main classify ds ['U'] ("lat][lon]".toList) (by decide)

/-- The locator `http://h/d?[lat][lon]` has no variable name. -/
theorem parse_input_empty_name_or_url_witness :
    '?' ∉ "http://h/d".toList ∧
      parse_input dim_spec.parse DODSDataset.fresh
          ("http://h/d".toList ++ '?' :: '[' :: "lat][lon]".toList)
        = some (.error (Exn.Error
            (if "http://h/d".toList = [] then
               Msg.no_url ("http://h/d".toList ++ '?' :: '[' :: "lat][lon]".toList)
             else Msg.no_var_name ("http://h/d".toList ++ '?' :: '[' :: "lat][lon]".toList)))) :=
  ⟨by decide,
   parse_input_empty_name_or_url.1 dim_spec.parse DODSDataset.fresh ("http://h/d".toList)
    ("lat][lon]".toList) (by decide)⟩

/-! ### The description of the variable -/

/-- Every specifier has one of the five types, so the numbers of occurrences
add up to the length of the sequence. -/
theorem occurrences_sum (spec : List dim_spec) :
    occurrences dim_type.lat spec + occurrences dim_type.lon spec
      + occurrences dim_type.index spec + occurrences dim_type.range spec
      + occurrences dim_type.unknown spec = spec.length := by
  induction spec with
  | nil => simp [occurrences]
  | cons i rest ih =>
    simp only [occurrences] at ih ⊢
    cases ht : i.type <;> simp [List.countP_cons, ht] <;> omega

/-- The sequences `verify_layer_spec` accepts. -/
theorem verify_layer_spec_ok_iff (ds : DODSDataset) :
    verify_layer_spec ds = .ok () ↔
      (ds.d_oBandSpec ≠ [] ∧ occurrences dim_type.unknown ds.d_oBandSpec = 0 ∧
        occurrences dim_type.lat ds.d_oBandSpec = 1 ∧
        occurrences dim_type.lon ds.d_oBandSpec = 1 ∧
        occurrences dim_type.range ds.d_oBandSpec ≤ 1 ∧
        (occurrences dim_type.index ds.d_oBandSpec : Int)
          + (occurrences dim_type.range ds.d_oBandSpec : Int) + 2 = ds.d_iVarRank) := by
  by_cases hne : ds.d_oBandSpec = []
  · rw [verify_layer_spec_empty ds hne]
    constructor
    · intro h; cases h
    · intro h; exact absurd hne h.1
  by_cases hu : 0 < occurrences dim_type.unknown ds.d_oBandSpec
  · rw [verify_layer_spec_unknown ds hu]
    constructor
    · intro h; cases h
    · intro h; omega
  have hu0 : occurrences dim_type.unknown ds.d_oBandSpec = 0 := by omega
  rw [verify_layer_spec_eq ds hne hu0]
  constructor
  · intro h
    split at h
    · cases h
    · split at h
      · cases h
      · split at h
        · cases h
        · split at h
          · cases h
          · refine ⟨hne, hu0, ?_, ?_, ?_, ?_⟩ <;> omega
  · rintro ⟨-, -, h1, h2, h3, h4⟩
    rw [if_neg (by omega), if_neg (by omega), if_neg (by omega), if_neg (by omega)]

/-- Without Range specifier the loop of `get_var_info` leaves the number of
bands as it was. -/
theorem var_loop_bands_kept (spec : List dim_spec) :
    ∀ st : VarLoop, occurrences dim_type.range spec = 0 →
      (var_loop spec st).d_iNumBands = st.d_iNumBands := by
  induction spec with
  | nil => intro st _; rfl
  | cons i rest ih =>
    intro st h
    rw [var_loop]
    cases ht : i.type with
    | range => simp [occurrences, List.countP_cons, ht] at h
    | unknown =>
      have hr : occurrences dim_type.range rest = 0 := by
        simpa [occurrences, List.countP_cons, ht] using h
      simp only [ih _ hr]
    | index =>
      have hr : occurrences dim_type.range rest = 0 := by
        simpa [occurrences, List.countP_cons, ht] using h
      simp only [ih _ hr]
    | lat =>
      have hr : occurrences dim_type.range rest = 0 := by
        simpa [occurrences, List.countP_cons, ht] using h
      simp only [ih _ hr]
    | lon =>
      have hr : occurrences dim_type.range rest = 0 := by
        simpa [occurrences, List.countP_cons, ht] using h
      simp only [ih _ hr]

/-- With one Range specifier the loop of `get_var_info` leaves `stop - start + 1`
of that specifier as the number of bands. -/
theorem var_loop_bands_range (spec : List dim_spec) :
    ∀ (st : VarLoop) (r : dim_spec), r ∈ spec → r.type = dim_type.range →
      occurrences dim_type.range spec ≤ 1 →
      (var_loop spec st).d_iNumBands = r.stop - r.start + 1 := by
  induction spec with
  | nil => intro st r hr; simp at hr
  | cons i rest ih =>
    intro st r hr hrt h
    rw [var_loop]
    cases ht : i.type with
    | range =>
      have h0 : occurrences dim_type.range rest = 0 := by
        simp [occurrences, List.countP_cons, ht] at h
        simpa [occurrences] using h
      have hri : r = i := by
        rcases List.mem_cons.mp hr with e | hin
        · exact e
        · exfalso
          have : 0 < occurrences dim_type.range rest :=
            List.countP_pos_iff.mpr ⟨r, hin, by simp [hrt]⟩
          omega
      simp only [var_loop_bands_kept rest _ h0, hri]
    | unknown =>
      have hin : r ∈ rest := by
        rcases List.mem_cons.mp hr with e | hin
        · rw [e, ht] at hrt; cases hrt
        · exact hin
      have h1 : occurrences dim_type.range rest ≤ 1 := by
        simpa [occurrences, List.countP_cons, ht] using h
      simp only [ih _ r hin hrt h1]
    | index =>
      have hin : r ∈ rest := by
        rcases List.mem_cons.mp hr with e | hin
        · rw [e, ht] at hrt; cases hrt
        · exact hin
      have h1 : occurrences dim_type.range rest ≤ 1 := by
        simpa [occurrences, List.countP_cons, ht] using h
      simp only [ih _ r hin hrt h1]
    | lat =>
      have hin : r ∈ rest := by
        rcases List.mem_cons.mp hr with e | hin
        · rw [e, ht] at hrt; cases hrt
        · exact hin
      have h1 : occurrences dim_type.range rest ≤ 1 := by
        simpa [occurrences, List.countP_cons, ht] using h
      simp only [ih _ r hin hrt h1]
    | lon =>
      have hin : r ∈ rest := by
        rcases List.mem_cons.mp hr with e | hin
        · rw [e, ht] at hrt; cases hrt
        · exact hin
      have h1 : occurrences dim_type.range rest ≤ 1 := by
        simpa [occurrences, List.countP_cons, ht] using h
      simp only [ih _ r hin hrt h1]

/-- Without Latitude specifier the loop of `get_var_info` leaves `lat_index` as
it was. -/
theorem var_loop_lat_kept (spec : List dim_spec) :
    ∀ st : VarLoop, occurrences dim_type.lat spec = 0 →
      (var_loop spec st).lat_index = st.lat_index := by
  induction spec with
  | nil => intro st _; rfl
  | cons i rest ih =>
    intro st h
    rw [var_loop]
    cases ht : i.type with
    | lat => simp [occurrences, List.countP_cons, ht] at h
    | unknown =>
      have hr : occurrences dim_type.lat rest = 0 := by
        simpa [occurrences, List.countP_cons, ht] using h
      simp only [ih _ hr]
    | index =>
      have hr : occurrences dim_type.lat rest = 0 := by
        simpa [occurrences, List.countP_cons, ht] using h
      simp only [ih _ hr]
    | range =>
      have hr : occurrences dim_type.lat rest = 0 := by
        simpa [occurrences, List.countP_cons, ht] using h
      simp only [ih _ hr]
    | lon =>
      have hr : occurrences dim_type.lat rest = 0 := by
        simpa [occurrences, List.countP_cons, ht] using h
      simp only [ih _ hr]

/-- With one Latitude specifier, at position `k`, the loop of `get_var_info`
leaves in `lat_index` the index that position had in the loop. -/
theorem var_loop_lat_found (spec : List dim_spec) :
    ∀ (st : VarLoop) (k : Nat) (i : dim_spec), spec[k]? = some i → i.type = dim_type.lat →
      occurrences dim_type.lat spec = 1 →
      (var_loop spec st).lat_index = st.index + k := by
  induction spec with
  | nil => intro st k i hk; simp at hk
  | cons j rest ih =>
    intro st k i hk hit h
    rw [var_loop]
    cases k with
    | zero =>
      simp only [List.getElem?_cons_zero, Option.some.injEq] at hk
      subst hk
      have h0 : occurrences dim_type.lat rest = 0 := by
        simpa [occurrences, List.countP_cons, hit] using h
      simp only [hit, var_loop_lat_kept rest _ h0]
      simp
    | succ k =>
      simp only [List.getElem?_cons_succ] at hk
      have hin : i ∈ rest := List.getElem?_mem hk
      have hpos : 0 < occurrences dim_type.lat rest :=
        List.countP_pos_iff.mpr ⟨i, hin, by simp [hit]⟩
      cases ht : j.type with
      | lat =>
        exfalso
        have h2 : occurrences dim_type.lat rest + 1 = 1 := by
          simpa [occurrences, List.countP_cons, ht] using h
        omega
      | unknown =>
        have h1 : occurrences dim_type.lat rest = 1 := by
          simpa [occurrences, List.countP_cons, ht] using h
        simp only [ih _ k i hk hit h1]
        push_cast; ring
      | index =>
        have h1 : occurrences dim_type.lat rest = 1 := by
          simpa [occurrences, List.countP_cons, ht] using h
        simp only [ih _ k i hk hit h1]
        push_cast; ring
      | range =>
        have h1 : occurrences dim_type.lat rest = 1 := by
          simpa [occurrences, List.countP_cons, ht] using h
        simp only [ih _ k i hk hit h1]
        push_cast; ring
      | lon =>
        have h1 : occurrences dim_type.lat rest = 1 := by
          simpa [occurrences, List.countP_cons, ht] using h
        simp only [ih _ k i hk hit h1]
        push_cast; ring

/-- Without Longitude specifier the loop of `get_var_info` leaves `lon_index` as
it was. -/
theorem var_loop_lon_kept (spec : List dim_spec) :
    ∀ st : VarLoop, occurrences dim_type.lon spec = 0 →
      (var_loop spec st).lon_index = st.lon_index := by
  induction spec with
  | nil => intro st _; rfl
  | cons i rest ih =>
    intro st h
    rw [var_loop]
    cases ht : i.type with
    | lon => simp [occurrences, List.countP_cons, ht] at h
    | unknown =>
      have hr : occurrences dim_type.lon rest = 0 := by
        simpa [occurrences, List.countP_cons, ht] using h
      simp only [ih _ hr]
    | index =>
      have hr : occurrences dim_type.lon rest = 0 := by
        simpa [occurrences, List.countP_cons, ht] using h
      simp only [ih _ hr]
    | range =>
      have hr : occurrences dim_type.lon rest = 0 := by
        simpa [occurrences, List.countP_cons, ht] using h
      simp only [ih _ hr]
    | lat =>
      have hr : occurrences dim_type.lon rest = 0 := by
        simpa [occurrences, List.countP_cons, ht] using h
      simp only [ih _ hr]

/-- With one Longitude specifier, at position `k`, the loop of `get_var_info`
leaves in `lon_index` the index that position had in the loop. -/
theorem var_loop_lon_found (spec : List dim_spec) :
    ∀ (st : VarLoop) (k : Nat) (i : dim_spec), spec[k]? = some i → i.type = dim_type.lon →
      occurrences dim_type.lon spec = 1 →
      (var_loop spec st).lon_index = st.index + k := by
  induction spec with
  | nil => intro st k i hk; simp at hk
  | cons j rest ih =>
    intro st k i hk hit h
    rw [var_loop]
    cases k with
    | zero =>
      simp only [List.getElem?_cons_zero, Option.some.injEq] at hk
      subst hk
      have h0 : occurrences dim_type.lon rest = 0 := by
        simpa [occurrences, List.countP_cons, hit] using h
      simp only [hit, var_loop_lon_kept rest _ h0]
      simp
    | succ k =>
      simp only [List.getElem?_cons_succ] at hk
      have hin : i ∈ rest := List.getElem?_mem hk
      have hpos : 0 < occurrences dim_type.lon rest :=
        List.countP_pos_iff.mpr ⟨i, hin, by simp [hit]⟩
      cases ht : j.type with
      | lon =>
        exfalso
        have h2 : occurrences dim_type.lon rest + 1 = 1 := by
          simpa [occurrences, List.countP_cons, ht] using h
        omega
      | unknown =>
        have h1 : occurrences dim_type.lon rest = 1 := by
          simpa [occurrences, List.countP_cons, ht] using h
        simp only [ih _ k i hk hit h1]
        push_cast; ring
      | index =>
        have h1 : occurrences dim_type.lon rest = 1 := by
          simpa [occurrences, List.countP_cons, ht] using h
        simp only [ih _ k i hk hit h1]
        push_cast; ring
      | range =>
        have h1 : occurrences dim_type.lon rest = 1 := by
          simpa [occurrences, List.countP_cons, ht] using h
        simp only [ih _ k i hk hit h1]
        push_cast; ring
      | lat =>
        have h1 : occurrences dim_type.lon rest = 1 := by
          simpa [occurrences, List.countP_cons, ht] using h
        simp only [ih _ k i hk hit h1]
        push_cast; ring

/-- On a validated sequence and an array with numeric elements, the part of
`get_var_info` that follows the choice of the array returns normally; the band
count is the one its loop leaves, the raster height and width are the sizes of
the dimensions at the positions of the Latitude and Longitude specifiers. -/
theorem var_info_of_array_ok (ds : DODSDataset) (poA : DapArray) (t : GDALDataType)
    (hv : verify_layer_spec (set_rank ds (poA.dims.length : Int)) = .ok ())
    (ht : element_datatype poA.elem = .ok t) :
    ∃ width height : Int,
      var_info_of_array ds poA = some (.ok (set_raster (set_rank ds (poA.dims.length : Int))
        (var_loop ds.d_oBandSpec ⟨0, -1, -1, 1⟩).d_iNumBands width height t)) ∧
      ∀ (k : Nat) (i : dim_spec), ds.d_oBandSpec[k]? = some i →
        (i.type = dim_type.lat → poA.dims[k]? = some height) ∧
        (i.type = dim_type.lon → poA.dims[k]? = some width) := by
  obtain ⟨hne, hu, hlat, hlon, hrange, hrank⟩ := (verify_layer_spec_ok_iff _).mp hv
  simp only [set_rank] at hne hu hlat hlon hrange hrank
  have hsum := occurrences_sum ds.d_oBandSpec
  have hlen : ds.d_oBandSpec.length = poA.dims.length := by omega
  obtain ⟨ilat, hilat, htlat⟩ : ∃ i ∈ ds.d_oBandSpec, i.type = dim_type.lat := by
    have : 0 < occurrences dim_type.lat ds.d_oBandSpec := by omega
    obtain ⟨i, hi, hd⟩ := List.countP_pos_iff.mp this
    exact ⟨i, hi, by simpa using hd⟩
  obtain ⟨ilon, hilon, htlon⟩ : ∃ i ∈ ds.d_oBandSpec, i.type = dim_type.lon := by
    have : 0 < occurrences dim_type.lon ds.d_oBandSpec := by omega
    obtain ⟨i, hi, hd⟩ := List.countP_pos_iff.mp this
    exact ⟨i, hi, by simpa using hd⟩
  obtain ⟨klat, hklat⟩ := List.mem_iff_getElem?.mp hilat
  obtain ⟨klon, hklon⟩ := List.mem_iff_getElem?.mp hilon
  have hlatidx := var_loop_lat_found ds.d_oBandSpec ⟨0, -1, -1, 1⟩ klat ilat hklat htlat hlat
  have hlonidx := var_loop_lon_found ds.d_oBandSpec ⟨0, -1, -1, 1⟩ klon ilon hklon htlon hlon
  simp only [Int.zero_add] at hlatidx hlonidx
  have hklat_lt : klat < poA.dims.length := by
    have := (List.getElem?_eq_some_iff.mp hklat).1
    omega
  have hklon_lt : klon < poA.dims.length := by
    have := (List.getElem?_eq_some_iff.mp hklon).1
    omega
  have hdlat : dimension_size poA (klat : Int) = some (poA.dims[klat]) := by
    simp [dimension_size, List.getElem?_eq_getElem hklat_lt]
  have hdlon : dimension_size poA (klon : Int) = some (poA.dims[klon]) := by
    simp [dimension_size, List.getElem?_eq_getElem hklon_lt]
  refine ⟨poA.dims[klon], poA.dims[klat], ?_, ?_⟩
  · unfold var_info_of_array
    simp only [hv]
    have e : (set_rank ds (poA.dims.length : Int)).d_oBandSpec = ds.d_oBandSpec := rfl
    simp only [e, hlatidx, hlonidx, hdlat, hdlon, ht]
  · intro k i hk
    constructor
    · intro hit
      have h2 := var_loop_lat_found ds.d_oBandSpec ⟨0, -1, -1, 1⟩ k i hk hit hlat
      simp only [Int.zero_add] at h2
      have hkk : k = klat := by
        have : (k : Int) = (klat : Int) := by rw [← h2, ← hlatidx]
        exact_mod_cast this
      rw [hkk, List.getElem?_eq_getElem hklat_lt]
    · intro hit
      have h2 := var_loop_lon_found ds.d_oBandSpec ⟨0, -1, -1, 1⟩ k i hk hit hlon
      simp only [Int.zero_add] at h2
      have hkk : k = klon := by
        have : (k : Int) = (klon : Int) := by rw [← h2, ← hlonidx]
        exact_mod_cast this
      rw [hkk, List.getElem?_eq_getElem hklon_lt]

/-- The method `get_var_info` hands an Array, or the array of a Grid, to
`var_info_of_array`. -/
theorem get_var_info_of_variable (dds : DDS) (ds : DODSDataset) (poA : DapArray)
    (hvar : get_variable dds ds.d_oVarName = some (BaseType.array poA) ∨
      get_variable dds ds.d_oVarName = some (BaseType.grid poA)) :
    get_var_info dds ds = var_info_of_array ds poA := by
  rcases hvar with h | h <;> simp [get_var_info, h]

/-- C13. When the variable is an Array or a Grid with numeric elements and the
dimension-spec sequence passes `verify_layer_spec` for its rank, `get_var_info`
returns normally and has set the band count `d_iNumBands` to `stop - start + 1`
of the Range specifier of the sequence, and to 1 when the sequence has no Range
specifier. -/
theorem get_var_info_band_count (dds : DDS) (ds : DODSDataset) (poA : DapArray)
    (t : GDALDataType)
    (hvar : get_variable dds ds.d_oVarName = some (BaseType.array poA) ∨
      get_variable dds ds.d_oVarName = some (BaseType.grid poA))
    (hv : verify_layer_spec (set_rank ds (poA.dims.length : Int)) = .ok ())
    (ht : element_datatype poA.elem = .ok t) :
    ∃ ds2, get_var_info dds ds = some (.ok ds2) ∧
      (∀ r ∈ ds.d_oBandSpec, r.type = dim_type.range →
        ds2.d_iNumBands = r.stop - r.start + 1) ∧
      (occurrences dim_type.range ds.d_oBandSpec = 0 → ds2.d_iNumBands = 1) := by
  obtain ⟨width, height, hok, -⟩ := var_info_of_array_ok ds poA t hv ht
  obtain ⟨-, -, -, -, hrange, -⟩ := (verify_layer_spec_ok_iff _).mp hv
  simp only [set_rank] at hrange
  refine ⟨_, (get_var_info_of_variable dds ds poA hvar).trans hok, ?_, ?_⟩
  · intro r hr hrt
    simp only [set_raster]
    exact var_loop_bands_range ds.d_oBandSpec _ r hr hrt hrange
  · intro h0
    simp only [set_raster]
    exact var_loop_bands_kept ds.d_oBandSpec _ h0

/-- The sequence Range(10,12), Latitude, Longitude on an array of 3 by 256 by
512 bytes: three bands. -/
theorem get_var_info_band_count_witness :
    ∃ ds2, get_var_info ⟨fun _ => some (BaseType.array ⟨[3, 256, 512], dods_type.dods_byte_c⟩)⟩
        (raster_dataset ['V']
          [⟨dim_type.range, 10, 12⟩, ⟨dim_type.lat, 0, 0⟩, ⟨dim_type.lon, 0, 0⟩] 0 0)
          = some (.ok ds2) ∧
      (∀ r ∈ [(⟨dim_type.range, 10, 12⟩ : dim_spec), ⟨dim_type.lat, 0, 0⟩, ⟨dim_type.lon, 0, 0⟩],
        r.type = dim_type.range → ds2.d_iNumBands = r.stop - r.start + 1) ∧
      (occurrences dim_type.range
          [(⟨dim_type.range, 10, 12⟩ : dim_spec), ⟨dim_type.lat, 0, 0⟩, ⟨dim_type.lon, 0, 0⟩] = 0 →
        ds2.d_iNumBands = 1) :=
  get_var_info_band_count
    ⟨fun _ => some (BaseType.array ⟨[3, 256, 512], dods_type.dods_byte_c⟩)⟩
    (raster_dataset ['V']
      [⟨dim_type.range, 10, 12⟩, ⟨dim_type.lat, 0, 0⟩, ⟨dim_type.lon, 0, 0⟩] 0 0)
    ⟨[3, 256, 512], dods_type.dods_byte_c⟩ GDALDataType.GDT_Byte (Or.inl (by rfl)) (by rfl)
    (by rfl)

/-- C14. When the variable is an Array or a Grid with numeric elements and the
dimension-spec sequence passes `verify_layer_spec` for its rank, `get_var_info`
returns normally and has set `nRasterYSize` to the declared size of the
dimension at the position of the Latitude specifier and `nRasterXSize` to the
declared size of the dimension at the position of the Longitude specifier. -/
theorem get_var_info_raster_size (dds : DDS) (ds : DODSDataset) (poA : DapArray)
    (t : GDALDataType)
    (hvar : get_variable dds ds.d_oVarName = some (BaseType.array poA) ∨
      get_variable dds ds.d_oVarName = some (BaseType.grid poA))
    (hv : verify_layer_spec (set_rank ds (poA.dims.length : Int)) = .ok ())
    (ht : element_datatype poA.elem = .ok t) :
    ∃ ds2, get_var_info dds ds = some (.ok ds2) ∧
      ∀ (k : Nat) (i : dim_spec), ds.d_oBandSpec[k]? = some i →
        (i.type = dim_type.lat → poA.dims[k]? = some ds2.nRasterYSize) ∧
        (i.type = dim_type.lon → poA.dims[k]? = some ds2.nRasterXSize) := by
  obtain ⟨width, height, hok, hdims⟩ := var_info_of_array_ok ds poA t hv ht
  exact ⟨_, (get_var_info_of_variable dds ds poA hvar).trans hok, hdims⟩

/-- The sequence Longitude, Index 0, Latitude on a Grid whose array is 512 by 4
by 256: the raster is 512 wide and 256 high. -/
theorem get_var_info_raster_size_witness :
    get_var_info ⟨fun _ => some (BaseType.grid ⟨[512, 4, 256], dods_type.dods_float32_c⟩)⟩
        (raster_dataset ['V']
          [⟨dim_type.lon, 0, 0⟩, ⟨dim_type.index, 0, 0⟩, ⟨dim_type.lat, 0, 0⟩] 0 0)
        = some (.ok ⟨[], ['V'], [],
            [⟨dim_type.lon, 0, 0⟩, ⟨dim_type.index, 0, 0⟩, ⟨dim_type.lat, 0, 0⟩], 3, 1, 512, 256,
            GDALDataType.GDT_Float32, 0, 0, 0, 0, []⟩) ∧
      ∃ ds2, get_var_info
          ⟨fun _ => some (BaseType.grid ⟨[512, 4, 256], dods_type.dods_float32_c⟩)⟩
          (raster_dataset ['V']
            [⟨dim_type.lon, 0, 0⟩, ⟨dim_type.index, 0, 0⟩, ⟨dim_type.lat, 0, 0⟩] 0 0)
          = some (.ok ds2) ∧
        ∀ (k : Nat) (i : dim_spec),
          [(⟨dim_type.lon, 0, 0⟩ : dim_spec), ⟨dim_type.index, 0, 0⟩, ⟨dim_type.lat, 0, 0⟩][k]?
              = some i →
            (i.type = dim_type.lat →
              ([512, 4, 256] : List Int)[k]? = some ds2.nRasterYSize) ∧
            (i.type = dim_type.lon →
              ([512, 4, 256] : List Int)[k]? = some ds2.nRasterXSize) :=
  ⟨by rfl,
   get_var_info_raster_size
    ⟨fun _ => some (BaseType.grid ⟨[512, 4, 256], dods_type.dods_float32_c⟩)⟩
    (raster_dataset ['V']
      [⟨dim_type.lon, 0, 0⟩, ⟨dim_type.index, 0, 0⟩, ⟨dim_type.lat, 0, 0⟩] 0 0)
    ⟨[512, 4, 256], dods_type.dods_float32_c⟩ GDALDataType.GDT_Float32 (Or.inr (by rfl))
    (by rfl) (by rfl)⟩

/-! ### Geo-referencing -/

/-- The method `get_geo_info` leaves the band count, the raster sizes and the
pixel type as they are; when it throws, it throws an `Error` and the WKT text is
the one the dataset had or the empty text. -/
theorem get_geo_info_frame (lib : Library) (das : AttrTable) (ds : DODSDataset) :
    (get_geo_info lib das ds).1.nRasterXSize = ds.nRasterXSize ∧
    (get_geo_info lib das ds).1.nRasterYSize = ds.nRasterYSize ∧
    (get_geo_info lib das ds).1.d_iNumBands = ds.d_iNumBands ∧
    (get_geo_info lib das ds).1.d_eDatatype = ds.d_eDatatype ∧
    ∀ e, (get_geo_info lib das ds).2 = .error e →
      (∃ msg, e = Exn.Error msg) ∧
      ((get_geo_info lib das ds).1.d_oWKT = ds.d_oWKT ∨
        (get_geo_info lib das ds).1.d_oWKT = []) := by
  generalize hr : get_geo_info lib das ds = r
  unfold get_geo_info at hr
  split at hr
  · subst hr
    simp
  · split_ifs at hr <;> subst hr <;> simp [set_geo]

/-- The method `get_geo_info` throws exactly when no container is found or the
container chosen gives no value for one of the six keys. -/
theorem get_geo_info_throws_iff (lib : Library) (das : AttrTable) (ds : DODSDataset) :
    (∃ e, (get_geo_info lib das ds).2 = .error e) ↔
      (geo_container das ds.d_oVarName = none ∨
        ∃ tbl, geo_container das ds.d_oVarName = some tbl ∧
          ∃ key ∈ [nlat, slat, elon, wlon, pcs, gcs], not_given (tbl.get_attr key) = true) := by
  generalize hr : get_geo_info lib das ds = r
  unfold get_geo_info at hr
  split at hr
  · rename_i hc
    subst hr
    simp [hc]
  · rename_i tbl hc
    split_ifs at hr with h1 h2 h3 h4 h5 h6 <;> subst hr <;> simp [hc, *]

/-- The method `get_var_info` leaves the locator, the dimension specifiers and
the WKT text as they are. -/
theorem get_var_info_frame (dds : DDS) (ds ds2 : DODSDataset)
    (h : get_var_info dds ds = some (.ok ds2)) :
    ds2.d_oWKT = ds.d_oWKT ∧ ds2.d_oVarName = ds.d_oVarName ∧
      ds2.d_oBandSpec = ds.d_oBandSpec ∧ ds2.d_oURL = ds.d_oURL := by
  have key : ∀ poA, var_info_of_array ds poA = some (.ok ds2) →
      ds2.d_oWKT = ds.d_oWKT ∧ ds2.d_oVarName = ds.d_oVarName ∧
        ds2.d_oBandSpec = ds.d_oBandSpec ∧ ds2.d_oURL = ds.d_oURL := by
    intro poA hp
    unfold var_info_of_array at hp
    simp only at hp
    split at hp
    · cases hp
    · split at hp
      · split at hp
        · cases hp
        · simp only [Option.some.injEq, Except.ok.injEq] at hp
          subst hp
          simp [set_raster, set_rank]
      · cases hp
  unfold get_var_info at h
  split at h
  · cases h
  · exact key _ h
  · exact key _ h
  · cases h

/-- A dataset parsed into a fresh one has an empty WKT text. -/
theorem parse_input_fresh_wkt (classify : Str → dim_spec) (filename : Str) (ds1 : DODSDataset)
    (h : parse_input classify DODSDataset.fresh filename = some (.ok ds1)) :
    ds1.d_oWKT = [] := by
  obtain ⟨url, var, rest, spec, -, -, -, -, -, -, hds⟩ :=
    parse_input_fuel_ok _ classify DODSDataset.fresh ds1 filename h
  subst hds
  rfl

/-- The geo-referencing step of `Open` when `get_geo_info` throws: the handler
leaves the fallback in the four corner members. -/
theorem geo_step_fallback (lib : Library) (das : AttrTable) (ds : DODSDataset) (e : Exn)
    (h : (get_geo_info lib das ds).2 = .error e) :
    geo_step lib das ds = some (set_geo (get_geo_info lib das ds).1 0
      ((get_geo_info lib das ds).1.nRasterYSize : ℚ)
      ((get_geo_info lib das ds).1.nRasterXSize : ℚ) 0 (get_geo_info lib das ds).1.d_oWKT) := by
  obtain ⟨msg, rfl⟩ := ((get_geo_info_frame lib das ds).2.2.2.2 e h).1
  unfold geo_step
  generalize get_geo_info lib das ds = r at h ⊢
  obtain ⟨d, o⟩ := r
  simp only at h
  subst h
  rfl

/-- C15. When `get_geo_info` throws, `Open` goes on and returns a dataset: for
every locator, server and library for which the steps before `get_geo_info`
succeed, the dataset returned has `d_dfURLon` equal to the raster width,
`d_dfURLat` and `d_dfLLLon` equal to 0, `d_dfLLLat` equal to the raster height
and an empty WKT text, whatever `get_geo_info` had assigned before it threw.
The method throws exactly when it finds no container or when the container it
chose has no value (a missing attribute, the empty text or `None`) for one of
the six keys. -/
theorem Open_geo_fallback :
    (∀ (lib : Library) (net : Str → AISConnect) (classify : Str → dim_spec)
        (pszFilename : Str) (ds1 ds2 : DODSDataset) (conn : AISConnect) (das : AttrTable)
        (dds : DDS) (e : Exn),
      (!EQUALN pszFilename ("http://".toList) 7 && !EQUALN pszFilename ("https://".toList) 8)
        = false →
      parse_input classify DODSDataset.fresh pszFilename = some (.ok ds1) →
      connect_to_server net ds1 = .ok conn →
      conn.request_das = .ok das →
      conn.request_dds = .ok dds →
      get_var_info dds ds1 = some (.ok ds2) →
      (get_geo_info lib das ds2).2 = .error e →
      ∃ poDS bands, Open lib net classify pszFilename
            = some (OpenResult.dataset poDS conn bands) ∧
        poDS.d_dfURLon = (ds2.nRasterXSize : ℚ) ∧ poDS.d_dfURLat = 0 ∧
        poDS.d_dfLLLon = 0 ∧ poDS.d_dfLLLat = (ds2.nRasterYSize : ℚ) ∧
        poDS.d_oWKT = [] ∧
        poDS.nRasterXSize = ds2.nRasterXSize ∧ poDS.nRasterYSize = ds2.nRasterYSize) ∧
    (∀ (lib : Library) (das : AttrTable) (ds : DODSDataset),
      (∃ e, (get_geo_info lib das ds).2 = .error e) ↔
        (geo_container das ds.d_oVarName = none ∨
          ∃ tbl, geo_container das ds.d_oVarName = some tbl ∧
            ∃ key ∈ [nlat, slat, elon, wlon, pcs, gcs],
              not_given (tbl.get_attr key) = true)) := by
  refine ⟨?_, get_geo_info_throws_iff⟩
  intro lib net classify pszFilename ds1 ds2 conn das dds e hpre hparse hconn hdas hdds hvar hgeo
  have hstep := geo_step_fallback lib das ds2 e hgeo
  obtain ⟨hx, hy, -, -, hthrow⟩ := get_geo_info_frame lib das ds2
  have hwkt2 : ds2.d_oWKT = [] := by
    rw [(get_var_info_frame dds ds1 ds2 hvar).1]
    exact parse_input_fresh_wkt classify pszFilename ds1 hparse
  have hwkt : (get_geo_info lib das ds2).1.d_oWKT = [] := by
    rcases (hthrow e hgeo).2 with h | h
    · rw [h, hwkt2]
    · exact h
  refine ⟨set_geo (get_geo_info lib das ds2).1 0
      ((get_geo_info lib das ds2).1.nRasterYSize : ℚ)
      ((get_geo_info lib das ds2).1.nRasterXSize : ℚ) 0 (get_geo_info lib das ds2).1.d_oWKT,
    band_loop (set_geo (get_geo_info lib das ds2).1 0
      ((get_geo_info lib das ds2).1.nRasterYSize : ℚ)
      ((get_geo_info lib das ds2).1.nRasterXSize : ℚ) 0 (get_geo_info lib das ds2).1.d_oWKT)
      (get_geo_info lib das ds2).1.d_iNumBands.toNat 0, ?_, ?_, ?_, ?_, ?_, ?_, ?_, ?_⟩
  · unfold Open
    simp only [hpre, hparse, hconn, hdas, hdds, hvar, hstep]
    rfl
  · simp [set_geo, hx]
  · simp [set_geo]
  · simp [set_geo]
  · simp [set_geo, hy]
  · simp [set_geo, hwkt]
  · simp [set_geo, hx]
  · simp [set_geo, hy]

/-- The locator `http://h/d?V[lat][lon]` on a server whose container `V` has a
northernmost latitude and no southernmost one: `get_geo_info` throws after
`d_dfURLat` has been assigned, and `Open` returns a dataset with the fallback. -/
theorem Open_geo_fallback_witness :
    (get_geo_info sample_library
        (AttrTable.mk [] [(['V'], AttrTable.mk [(nlat, "10".toList)] [])])
        (set_raster (set_rank (store_locator DODSDataset.fresh ("http://h/d".toList) ['V']
          ("[lat][lon]".toList) [⟨dim_type.lat, 0, 0⟩, ⟨dim_type.lon, 0, 0⟩]) 2) 1 512 256
          GDALDataType.GDT_Byte)).1.d_dfURLat = 7 ∧
    ∃ poDS bands, Open sample_library (fun _ => north_only_server) dim_spec.parse
          ("http://h/d?V[lat][lon]".toList)
          = some (OpenResult.dataset poDS north_only_server bands) ∧
      poDS.d_dfURLon = ((512 : Int) : ℚ) ∧ poDS.d_dfURLat = 0 ∧
      poDS.d_dfLLLon = 0 ∧ poDS.d_dfLLLat = ((256 : Int) : ℚ) ∧
      poDS.d_oWKT = [] ∧
      poDS.nRasterXSize = 512 ∧ poDS.nRasterYSize = 256 :=
  ⟨by rfl,
   Open_geo_fallback.1 sample_library (fun _ => north_only_server) dim_spec.parse
    ("http://h/d?V[lat][lon]".toList)
    (store_locator DODSDataset.fresh ("http://h/d".toList) ['V']
      ("[lat][lon]".toList) [⟨dim_type.lat, 0, 0⟩, ⟨dim_type.lon, 0, 0⟩])
    (set_raster (set_rank (store_locator DODSDataset.fresh ("http://h/d".toList) ['V']
      ("[lat][lon]".toList) [⟨dim_type.lat, 0, 0⟩, ⟨dim_type.lon, 0, 0⟩]) 2) 1 512 256
      GDALDataType.GDT_Byte)
    north_only_server
    (AttrTable.mk [] [(['V'], AttrTable.mk [(nlat, "10".toList)] [])])
    ⟨fun _ => some (BaseType.array ⟨[256, 512], dods_type.dods_byte_c⟩)⟩
    (Exn.Error (Msg.geo_value_not_found ['V'] slat))
    (by rfl) (by rfl) (by rfl) (by rfl) (by rfl) (by rfl) (by rfl)⟩

/-! ### The geo-transform -/

/-- C16. Over exact rational arithmetic, on a raster of non-zero width and
height, `GetGeoTransform` writes the six values `d_dfLLLon`,
`(d_dfURLon - d_dfLLLon) / width`, 0, `d_dfURLat`, 0 and
`-(d_dfURLat - d_dfLLLat) / height`. -/
theorem GetGeoTransform_values (ds : DODSDataset) (_hw : ds.nRasterXSize ≠ 0)
    (_hh : ds.nRasterYSize ≠ 0) :
    GetGeoTransform exact ds =
      [ds.d_dfLLLon, (ds.d_dfURLon - ds.d_dfLLLon) / (ds.nRasterXSize : ℚ), 0,
       ds.d_dfURLat, 0, -(ds.d_dfURLat - ds.d_dfLLLat) / (ds.nRasterYSize : ℚ)] := by
  simp only [GetGeoTransform, exact, neg_one_mul]

/-- A raster of 4 by 2 pixels between longitudes 10 and 30 and latitudes 40 and
50: the pixels are 5 wide and 5 high. -/
theorem GetGeoTransform_values_witness :
    GetGeoTransform exact ⟨[], [], [], [], 2, 1, 4, 2, GDALDataType.GDT_Byte, 10, 40, 30, 50, []⟩
      = [10, 5, 0, 50, 0, -5] := by
  rw [GetGeoTransform_values ⟨[], [], [], [], 2, 1, 4, 2, GDALDataType.GDT_Byte, 10, 40, 30, 50, []⟩
    (by decide) (by decide)]
  norm_num

/-! ### Reading a raster band -/

/-- C19. `IRasterIO` returns `CE_Failure` without any call of `GetRaster`
whenever `nPixelSpace` is not the size in bytes of the buffer type or
`nLineSpace` is not `nPixelSpace * nBufXSize`; conversely, when it has read (one
of its three blocks has run) the strides are these. -/
theorem IRasterIO_rejects_strides :
    (∀ (bits : GDALDataType → Int) (fl : ℚ → ℚ) (conn : AISConnect) (ds : DODSDataset)
        (band : DODSRasterBand) (nXOff nYOff nXSize nYSize nBufXSize nBufYSize : Int)
        (eBufType : GDALDataType) (nPixelSpace nLineSpace : Int),
      (nPixelSpace ≠ Int.tdiv (bits eBufType) 8 ∨ nLineSpace ≠ nPixelSpace * nBufXSize) →
       IRasterIO bits fl conn ds band nXOff nYOff nXSize nYSize nBufXSize nBufYSize eBufType
          nPixelSpace nLineSpace = ⟨CPLErr.CE_Failure, none, []⟩) ∧
    (∀ (bits : GDALDataType → Int) (fl : ℚ → ℚ) (conn : AISConnect) (ds : DODSDataset)
        (band : DODSRasterBand) (nXOff nYOff nXSize nYSize nBufXSize nBufYSize : Int)
        (eBufType : GDALDataType) (nPixelSpace nLineSpace : Int),
      ( IRasterIO bits fl conn ds band nXOff nYOff nXSize nYSize nBufXSize nBufYSize eBufType
          nPixelSpace nLineSpace).path ≠ none →
        nPixelSpace = Int.tdiv (bits eBufType) 8 ∧ nLineSpace = nPixelSpace * nBufXSize) := by
  constructor
  · intro bits fl conn ds band nXOff nYOff nXSize nYSize nBufXSize nBufYSize eBufType
      nPixelSpace nLineSpace h
    unfold IRasterIO
    rw [if_pos h]
  · intro bits fl conn ds band nXOff nYOff nXSize nYSize nBufXSize nBufYSize eBufType
      nPixelSpace nLineSpace h
    by_contra hc
    have hs : nPixelSpace ≠ Int.tdiv (bits eBufType) 8 ∨ nLineSpace ≠ nPixelSpace * nBufXSize := by
      by_contra hn
      push_neg at hn
      exact hc hn
    unfold IRasterIO at h
    rw [if_pos hs] at h
    exact h rfl

/-- A read of 4 by 4 bytes into a buffer of bytes with a pixel stride of 2. -/
theorem IRasterIO_rejects_strides_witness :
     IRasterIO type_bits exact array_server
        (raster_dataset ['V'] [⟨dim_type.lat, 0, 0⟩, ⟨dim_type.lon, 0, 0⟩] 512 256)
        ⟨1, GDALDataType.GDT_Byte, 512, 256⟩ 0 0 4 4 4 4 GDALDataType.GDT_Byte 2 8
      = ⟨CPLErr.CE_Failure, none, []⟩ :=
  IRasterIO_rejects_strides.1 type_bits exact array_server
    (raster_dataset ['V'] [⟨dim_type.lat, 0, 0⟩, ⟨dim_type.lon, 0, 0⟩] 512 256)
    ⟨1, GDALDataType.GDT_Byte, 512, 256⟩ 0 0 4 4 4 4 GDALDataType.GDT_Byte 2 8
    (Or.inl (by decide))

/-- C20. With the strides accepted, `IRasterIO` returns `CE_Failure` without any
call of `GetRaster` whenever `nXOff + nXSize` is greater than the raster width
or `nYOff + nYSize` is greater than the raster height; the test is made by
`IRasterIO` and the result is the same for every connection, so neither
`GetRaster` nor `BuildConstraint` is reached. -/
theorem IRasterIO_rejects_window (bits : GDALDataType → Int) (fl : ℚ → ℚ)
    (conn : AISConnect) (ds : DODSDataset)
    (band : DODSRasterBand) (nXOff nYOff nXSize nYSize nBufXSize nBufYSize : Int)
    (eBufType : GDALDataType) (nPixelSpace nLineSpace : Int)
    (hp : nPixelSpace = Int.tdiv (bits eBufType) 8) (hl : nLineSpace = nPixelSpace * nBufXSize)
    (hw : nXOff + nXSize > ds.nRasterXSize ∨ nYOff + nYSize > ds.nRasterYSize) :
     IRasterIO bits fl conn ds band nXOff nYOff nXSize nYSize nBufXSize nBufYSize eBufType
        nPixelSpace nLineSpace = ⟨CPLErr.CE_Failure, none, []⟩ := by
  unfold IRasterIO
  rw [if_neg (by simp [hp, hl]), if_pos hw]

/-- A read of 4 columns from column 509 of a raster of 512 columns: the request
that `BuildConstraint` would let through is refused here. -/
theorem IRasterIO_rejects_window_witness :
     IRasterIO type_bits exact array_server
        (raster_dataset ['V'] [⟨dim_type.lat, 0, 0⟩, ⟨dim_type.lon, 0, 0⟩] 512 256)
        ⟨1, GDALDataType.GDT_Byte, 512, 256⟩ 509 0 4 1 4 1 GDALDataType.GDT_Byte 1 4
      = ⟨CPLErr.CE_Failure, none, []⟩ :=
  IRasterIO_rejects_window type_bits exact array_server
    (raster_dataset ['V'] [⟨dim_type.lat, 0, 0⟩, ⟨dim_type.lon, 0, 0⟩] 512 256)
    ⟨1, GDALDataType.GDT_Byte, 512, 256⟩ 509 0 4 1 4 1 GDALDataType.GDT_Byte 1 4
    (by decide) (by decide) (Or.inl (by decide))

/-- The method `get_geo_info` reads the attribute tree only through the
container chosen at its start. -/
theorem get_geo_info_of_container (lib : Library) (das das2 : AttrTable) (ds : DODSDataset)
    (h : geo_container das ds.d_oVarName = geo_container das2 ds.d_oVarName) :
    get_geo_info lib das ds = get_geo_info lib das2 ds := by
  unfold get_geo_info
  rw [h]

/-- C23. The container `get_geo_info` reads is chosen once: the container of
the variable when it exists and gives a value for `Northernmost_Latitude`,
otherwise the result of the lookup of `opendap_org_gdal`; what the method
returns and leaves in the dataset depends on the attribute tree through that
container only.  There is no fallback key by key: when the container of the
variable gives a northernmost latitude and no value for another required key,
the method throws and the geo-referencing step of `Open` leaves the fallback,
whatever the container `opendap_org_gdal` holds.  The attribute tree with a
container `V` holding the northernmost latitude only and a container
`opendap_org_gdal` holding the six keys makes the method throw for the
southernmost latitude, whereas without the container `V` it returns normally. -/
theorem get_geo_info_single_container :
    (∀ (das : AttrTable) (varName : Str) (tbl : AttrTable),
      das.find_container varName = some tbl → not_given (tbl.get_attr nlat) = false →
      geo_container das varName = some tbl) ∧
    (∀ (das : AttrTable) (varName : Str),
      (das.find_container varName = none ∨
        ∃ tbl, das.find_container varName = some tbl ∧ not_given (tbl.get_attr nlat) = true) →
      geo_container das varName = das.find_container ("opendap_org_gdal".toList)) ∧
    (∀ (lib : Library) (das das2 : AttrTable) (ds : DODSDataset),
      geo_container das ds.d_oVarName = geo_container das2 ds.d_oVarName →
      get_geo_info lib das ds = get_geo_info lib das2 ds) ∧
    (∀ (lib : Library) (das : AttrTable) (ds : DODSDataset) (tbl : AttrTable),
      das.find_container ds.d_oVarName = some tbl → not_given (tbl.get_attr nlat) = false →
      (∃ key ∈ [slat, elon, wlon, pcs, gcs], not_given (tbl.get_attr key) = true) →
      (∃ msg, (get_geo_info lib das ds).2 = .error (Exn.Error msg)) ∧
      ∃ poDS, geo_step lib das ds = some poDS ∧
        poDS.d_dfURLon = (ds.nRasterXSize : ℚ) ∧ poDS.d_dfURLat = 0 ∧
        poDS.d_dfLLLon = 0 ∧ poDS.d_dfLLLat = (ds.nRasterYSize : ℚ)) ∧
    ((get_geo_info sample_library
        (AttrTable.mk []
          [(['V'], AttrTable.mk [(nlat, "10".toList)] []),
           ("opendap_org_gdal".toList,
             AttrTable.mk [(nlat, "10".toList), (slat, "0".toList), (elon, "20".toList),
               (wlon, "0".toList), (pcs, "P".toList), (gcs, "G".toList)] [])])
        (raster_dataset ['V'] [⟨dim_type.lat, 0, 0⟩, ⟨dim_type.lon, 0, 0⟩] 512 256)).2
        = .error (Exn.Error (Msg.geo_value_not_found ['V'] slat)) ∧
      (get_geo_info sample_library
        (AttrTable.mk []
          [("opendap_org_gdal".toList,
             AttrTable.mk [(nlat, "10".toList), (slat, "0".toList), (elon, "20".toList),
               (wlon, "0".toList), (pcs, "P".toList), (gcs, "G".toList)] [])])
        (raster_dataset ['V'] [⟨dim_type.lat, 0, 0⟩, ⟨dim_type.lon, 0, 0⟩] 512 256)).2
        = .ok ()) := by
  refine ⟨?_, ?_, get_geo_info_of_container, ?_, by rfl, by rfl⟩
  · intro das varName tbl hf hn
    simp [geo_container, hf, hn]
  · intro das varName h
    rcases h with h | ⟨tbl, hf, hn⟩
    · simp [geo_container, h]
    · simp [geo_container, hf, hn]
  · intro lib das ds tbl hf hn hkey
    have hc : geo_container das ds.d_oVarName = some tbl := by
      simp [geo_container, hf, hn]
    have hthrow : ∃ e, (get_geo_info lib das ds).2 = .error e := by
      rw [get_geo_info_throws_iff]
      right
      obtain ⟨key, hk, hg⟩ := hkey
      exact ⟨tbl, hc, key, by simp at hk ⊢; tauto, hg⟩
    obtain ⟨e, he⟩ := hthrow
    obtain ⟨hx, hy, -, -, hfr⟩ := get_geo_info_frame lib das ds
    obtain ⟨msg, hmsg⟩ := (hfr e he).1
    refine ⟨⟨msg, by rw [he, hmsg]⟩, _, geo_step_fallback lib das ds e he, ?_, ?_, ?_, ?_⟩
    · simp [set_geo, hx]
    · simp [set_geo]
    · simp [set_geo]
    · simp [set_geo, hy]

/-- The container `V` with a northernmost latitude and nothing else: the step
fails and the fallback is left, although `opendap_org_gdal` has the six keys. -/
theorem get_geo_info_single_container_witness :
    (∃ msg, (get_geo_info sample_library
        (AttrTable.mk []
          [(['V'], AttrTable.mk [(nlat, "10".toList)] []),
           ("opendap_org_gdal".toList,
             AttrTable.mk [(nlat, "10".toList), (slat, "0".toList), (elon, "20".toList),
               (wlon, "0".toList), (pcs, "P".toList), (gcs, "G".toList)] [])])
        (raster_dataset ['V'] [⟨dim_type.lat, 0, 0⟩, ⟨dim_type.lon, 0, 0⟩] 512 256)).2
        = .error (Exn.Error msg)) ∧
    ∃ poDS, geo_step sample_library
        (AttrTable.mk []
          [(['V'], AttrTable.mk [(nlat, "10".toList)] []),
           ("opendap_org_gdal".toList,
             AttrTable.mk [(nlat, "10".toList), (slat, "0".toList), (elon, "20".toList),
               (wlon, "0".toList), (pcs, "P".toList), (gcs, "G".toList)] [])])
        (raster_dataset ['V'] [⟨dim_type.lat, 0, 0⟩, ⟨dim_type.lon, 0, 0⟩] 512 256)
        = some poDS ∧
      poDS.d_dfURLon = (((512 : Int)) : ℚ) ∧ poDS.d_dfURLat = 0 ∧
      poDS.d_dfLLLon = 0 ∧ poDS.d_dfLLLat = (((256 : Int)) : ℚ) :=
  get_geo_info_single_container.2.2.2.1 sample_library
    (AttrTable.mk []
      [(['V'], AttrTable.mk [(nlat, "10".toList)] []),
       ("opendap_org_gdal".toList,
         AttrTable.mk [(nlat, "10".toList), (slat, "0".toList), (elon, "20".toList),
           (wlon, "0".toList), (pcs, "P".toList), (gcs, "G".toList)] [])])
    (raster_dataset ['V'] [⟨dim_type.lat, 0, 0⟩, ⟨dim_type.lon, 0, 0⟩] 512 256)
    (AttrTable.mk [(nlat, "10".toList)] []) (by rfl) (by rfl)
    ⟨slat, by simp, by rfl⟩

/-! ### The locator parser: accepted and refused locators -/

/-- The outcome of `parse_input` on every locator, from the position of its
first question mark and of the first opening bracket after it. -/
theorem parse_input_outcome (classify : Str → dim_spec) (ds : DODSDataset) (filename : Str) :
    (find filename '?' 0 = none →
      parse_input classify ds filename
        = some (.error (Exn.Error (Msg.no_question_mark filename)))) ∧
    (find filename '?' 0 = some 0 →
      parse_input classify ds filename = some (.error (Exn.Error (Msg.no_url filename)))) ∧
    (∀ q, find filename '?' 0 = some q → q ≠ 0 → find filename '[' (q + 1) = none →
      parse_input classify ds filename = some (.error (Exn.Error (Msg.no_bracket filename)))) ∧
    (∀ q, find filename '?' 0 = some q → q ≠ 0 → find filename '[' (q + 1) = some (q + 1) →
      parse_input classify ds filename
        = some (.error (Exn.Error (Msg.no_var_name filename)))) ∧
    (∀ q bracket, find filename '?' 0 = some q → q ≠ 0 →
      find filename '[' (q + 1) = some bracket → bracket ≠ q + 1 →
      ∃ spec, parse_input classify ds filename
        = some (.ok (store_locator ds (filename.take q)
            ((filename.drop (q + 1)).take (bracket - q - 1)) (filename.drop bracket) spec))) := by
  have hsub0 : ∀ q, q < filename.length →
      substr filename 0 q = some (filename.take q) := by
    intro q _; simp [substr]
  refine ⟨?_, ?_, ?_, ?_, ?_⟩
  · intro hq
    simp [parse_input, parse_input_fuel, hq]
  · intro hq
    simp [parse_input, parse_input_fuel, hq, substr]
  · intro q hq hq0 hb
    have hlt := (find_ge _ _ _ _ hq).2
    have hlen : ¬ (filename.take q).length = 0 := by
      rw [List.length_take]; omega
    unfold parse_input parse_input_fuel
    simp only [hq, hsub0 q hlt, hlen, if_false, hb]
  · intro q hq hq0 hb
    have hlt := (find_ge _ _ _ _ hq).2
    have hlen : ¬ (filename.take q).length = 0 := by
      rw [List.length_take]; omega
    have hsv : substr filename (q + 1) (q + 1 - q - 1) = some [] := by
      have e : q + 1 - q - 1 = 0 := by omega
      simp [substr, e]; omega
    unfold parse_input parse_input_fuel
    simp only [hq, hsub0 q hlt, hlen, if_false, hb, hsv]
    simp
  · intro q bracket hq hq0 hb hne
    have hlt := (find_ge _ _ _ _ hq).2
    have hbb := find_ge _ _ _ _ hb
    have hlen : ¬ (filename.take q).length = 0 := by
      rw [List.length_take]; omega
    have hsv : substr filename (q + 1) (bracket - q - 1)
        = some ((filename.drop (q + 1)).take (bracket - q - 1)) := by
      simp [substr]; omega
    have hvlen : ¬ ((filename.drop (q + 1)).take (bracket - q - 1)).length = 0 := by
      rw [List.length_take, List.length_drop]; omega
    have hse : substrFrom filename bracket = some (filename.drop bracket) := by
      simp [substrFrom]; omega
    have helen : ¬ (filename.drop bracket).length = 0 := by
      rw [List.length_drop]; omega
    unfold parse_input parse_input_fuel
    simp only [hq, hsub0 q hlt, hlen, if_false, hb, hsv, hvlen, hse, helen]
    cases hf : find (filename.drop bracket) ']' 0 with
    | none => exact ⟨ds.d_oBandSpec, by simp [parse_loop]⟩
    | some fin =>
      have h3 := find_ge _ _ _ _ hf
      have h4 := find_getElem _ _ _ _ hf
      obtain ⟨spec2, hl⟩ := parse_loop_terminates classify (filename.drop bracket)
        filename.length 0 fin ds.d_oBandSpec (by omega) h4
        (by simp [List.length_drop]; omega)
      exact ⟨spec2, by simp [hl]⟩

/-- The scan finds nothing exactly in a text without the character. -/
theorem findAux_eq_none_iff (c : Char) (s : List Char) (i : Nat) :
    findAux c s i = none ↔ c ∉ s := by
  induction s generalizing i with
  | nil => simp [findAux]
  | cons x xs ih =>
    by_cases hx : x = c
    · simp [findAux, hx]
    · have hx2 : ¬ c = x := fun e => hx e.symm
      simp [findAux, hx, hx2, ih]

/-- The scan stops at once exactly when the text starts with the character. -/
theorem findAux_eq_start_iff (c : Char) (s : List Char) (i : Nat) :
    findAux c s i = some i ↔ s.head? = some c := by
  cases s with
  | nil => simp [findAux]
  | cons x xs =>
    by_cases hx : x = c
    · simp [findAux, hx]
    · constructor
      · intro h
        simp only [findAux, hx, if_false] at h
        obtain ⟨a, b, -, -, hk⟩ := findAux_some c xs (i + 1) i h
        omega
      · intro h
        simp only [List.head?_cons, Option.some.injEq] at h
        exact absurd h hx

/-- C24. `parse_input` always returns, normally or with an `Error`; it throws
if and only if the locator has no question mark, or starts with its first
question mark, or has no opening bracket after the first question mark, or has
one immediately after it.  The Error "Failed to find a Band Specification" is
never thrown.  The locator `U?V[lat`, whose band expression has no closing
bracket, is accepted without any dimension specifier, and the dataset it gives
is refused by `verify_layer_spec`. -/
theorem parse_input_fails_iff :
    (∀ (classify : Str → dim_spec) (ds : DODSDataset) (filename : Str),
      ((∃ ds2, parse_input classify ds filename = some (.ok ds2)) ∨
        ∃ msg, parse_input classify ds filename = some (.error (Exn.Error msg))) ∧
      ((∃ e, parse_input classify ds filename = some (.error e)) ↔
        ('?' ∉ filename ∨ filename.head? = some '?' ∨
          ∃ url rest, filename = url ++ '?' :: rest ∧ '?' ∉ url ∧
            ('[' ∉ rest ∨ rest.head? = some '['))) ∧
      parse_input classify ds filename
        ≠ some (.error (Exn.Error (Msg.no_band_spec filename)))) ∧
    (∀ classify : Str → dim_spec,
      parse_input classify DODSDataset.fresh ("U?V[lat".toList)
        = some (.ok (store_locator DODSDataset.fresh ['U'] ['V'] ("[lat".toList) [])) ∧
      verify_layer_spec (store_locator DODSDataset.fresh ['U'] ['V'] ("[lat".toList) [])
        = .error (Exn.InternalErr Msg.not_parsed)) := by
  refine ⟨?_, fun classify => ⟨by rfl, by rfl⟩⟩
  intro classify ds filename
  obtain ⟨h1, h2, h3, h4, h5⟩ := parse_input_outcome classify ds filename
  refine ⟨parse_input_terminates classify ds filename, ?_, ?_⟩
  · cases hq : find filename '?' 0 with
    | none =>
      have hn : '?' ∉ filename := (findAux_eq_none_iff '?' filename 0).mp (by simpa [find] using hq)
      exact ⟨fun _ => Or.inl hn, fun _ => ⟨_, h1 hq⟩⟩
    | some q =>
      obtain ⟨url, rest, hfile, hurl, hqlen⟩ :=
        findAux_some '?' filename 0 q (by simpa [find] using hq)
      simp only [Nat.zero_add] at hqlen
      have hin : '?' ∈ filename := by rw [hfile]; simp
      have hfb : find filename '[' (q + 1) = findAux '[' rest (q + 1) := by
        rw [hfile, hqlen]; simp [find]
      by_cases hq0 : q = 0
      · have hhead : filename.head? = some '?' := by
          have : url = [] := List.length_eq_zero.mp (by omega)
          rw [hfile, this]; rfl
        rw [hq0] at hq
        exact ⟨fun _ => Or.inr (Or.inl hhead), fun _ => ⟨_, h2 hq⟩⟩
      · have hnohead : filename.head? ≠ some '?' := by
          intro hh
          cases url with
          | nil => simp at hqlen; exact hq0 hqlen
          | cons x xs =>
            rw [hfile] at hh
            simp at hh
            exact hurl (by simp [hh])
        have huniq : ∀ url2 rest2, filename = url2 ++ '?' :: rest2 → '?' ∉ url2 →
            url2 = url ∧ rest2 = rest := by
          intro url2 rest2 hf2 hu2
          have := find_zero_hit '?' url2 rest2 hu2
          rw [← hf2, hq] at this
          have hl : url2.length = url.length := by
            simp only [Option.some.injEq] at this; omega
          have e := hf2.symm.trans hfile
          have := List.append_inj e hl
          exact ⟨this.1, by simpa using this.2⟩
        cases hb : find filename '[' (q + 1) with
        | none =>
          have hnb : '[' ∉ rest := (findAux_eq_none_iff '[' rest (q + 1)).mp (by rw [← hfb, hb])
          exact ⟨fun _ => Or.inr (Or.inr ⟨url, rest, hfile, hurl, Or.inl hnb⟩),
            fun _ => ⟨_, h3 q hq hq0 hb⟩⟩
        | some bracket =>
          by_cases hbq : bracket = q + 1
          · have hh : rest.head? = some '[' :=
              (findAux_eq_start_iff '[' rest (q + 1)).mp (by rw [← hfb, hb, hbq])
            rw [hbq] at hb
            exact ⟨fun _ => Or.inr (Or.inr ⟨url, rest, hfile, hurl, Or.inr hh⟩),
              fun _ => ⟨_, h4 q hq hq0 hb⟩⟩
          · obtain ⟨spec, hok⟩ := h5 q bracket hq hq0 hb hbq
            constructor
            · rintro ⟨e, he⟩
              rw [hok] at he
              cases he
            · rintro (hn | hh | ⟨url2, rest2, hf2, hu2, hcase⟩)
              · exact absurd hin hn
              · exact absurd hh hnohead
              · obtain ⟨-, hr⟩ := huniq url2 rest2 hf2 hu2
                subst hr
                exfalso
                rcases hcase with hc | hc
                · have := (findAux_eq_none_iff '[' rest2 (q + 1)).mpr hc
                  rw [← hfb, hb] at this
                  cases this
                · have := (findAux_eq_start_iff '[' rest2 (q + 1)).mpr hc
                  rw [← hfb, hb] at this
                  simp only [Option.some.injEq] at this
                  exact hbq this
  · intro hbad
    cases hq : find filename '?' 0 with
    | none => rw [h1 hq] at hbad; cases hbad
    | some q =>
      by_cases hq0 : q = 0
      · rw [hq0] at hq; rw [h2 hq] at hbad; cases hbad
      · cases hb : find filename '[' (q + 1) with
        | none => rw [h3 q hq hq0 hb] at hbad; cases hbad
        | some bracket =>
          by_cases hbq : bracket = q + 1
          · rw [hbq] at hb; rw [h4 q hq hq0 hb] at hbad; cases hbad
          · obtain ⟨spec, hok⟩ := h5 q bracket hq hq0 hb hbq
            rw [hok] at hbad; cases hbad



/-- The locator `UV[lat][lon]` has no question mark, so `parse_input` throws. -/
theorem parse_input_fails_iff_witness :
    ∃ e, parse_input dim_spec.parse DODSDataset.fresh ("UV[lat][lon]".toList)
      = some (.error e) :=
  (parse_input_fails_iff.1 dim_spec.parse DODSDataset.fresh ("UV[lat][lon]".toList)).2.1.mpr
    (Or.inl (by decide))

/-! ### What an accepted dimension-spec sequence guarantees -/

/-- C25. A dataset whose dimension-spec sequence `verify_layer_spec` accepts
has as many specifiers as the rank `d_iVarRank`, no Unknown specifier, exactly
one Latitude and one Longitude specifier.  Hence the `lat_index` and
`lon_index` that the loop of `get_var_info` computes are different and lie
between 0 and the rank, the two dimension lookups on an array of that rank are
inside the array, and `BuildConstraint` throws no `InternalErr` on that
dataset: its Unknown branch is not reached. -/
theorem verify_layer_spec_accepts (ds : DODSDataset) (h : verify_layer_spec ds = .ok ()) :
    (ds.d_oBandSpec.length : Int) = ds.d_iVarRank ∧
    (∀ i ∈ ds.d_oBandSpec, i.type ≠ dim_type.unknown) ∧
    occurrences dim_type.lat ds.d_oBandSpec = 1 ∧
    occurrences dim_type.lon ds.d_oBandSpec = 1 ∧
    (var_loop ds.d_oBandSpec ⟨0, -1, -1, 1⟩).lat_index
      ≠ (var_loop ds.d_oBandSpec ⟨0, -1, -1, 1⟩).lon_index ∧
    0 ≤ (var_loop ds.d_oBandSpec ⟨0, -1, -1, 1⟩).lat_index ∧
    (var_loop ds.d_oBandSpec ⟨0, -1, -1, 1⟩).lat_index < ds.d_iVarRank ∧
    0 ≤ (var_loop ds.d_oBandSpec ⟨0, -1, -1, 1⟩).lon_index ∧
    (var_loop ds.d_oBandSpec ⟨0, -1, -1, 1⟩).lon_index < ds.d_iVarRank ∧
    (∀ poA : DapArray, (poA.dims.length : Int) = ds.d_iVarRank →
      (∃ height, dimension_size poA (var_loop ds.d_oBandSpec ⟨0, -1, -1, 1⟩).lat_index
        = some height) ∧
      (∃ width, dimension_size poA (var_loop ds.d_oBandSpec ⟨0, -1, -1, 1⟩).lon_index
        = some width)) ∧
    (∀ (x y xs ys b : Int) (msg : Msg),
      BuildConstraint ds x y xs ys b ≠ .error (Exn.InternalErr msg)) := by
  obtain ⟨hne, hu, hlat, hlon, hrange, hrank⟩ := (verify_layer_spec_ok_iff ds).mp h
  have hsum := occurrences_sum ds.d_oBandSpec
  have hlen : (ds.d_oBandSpec.length : Int) = ds.d_iVarRank := by omega
  have hnou : ∀ i ∈ ds.d_oBandSpec, i.type ≠ dim_type.unknown := by
    intro i hi ht
    have : 0 < occurrences dim_type.unknown ds.d_oBandSpec :=
      List.countP_pos_iff.mpr ⟨i, hi, by simp [ht]⟩
    omega
  obtain ⟨ilat, hilat, htlat⟩ : ∃ i ∈ ds.d_oBandSpec, i.type = dim_type.lat := by
    have : 0 < occurrences dim_type.lat ds.d_oBandSpec := by omega
    obtain ⟨i, hi, hd⟩ := List.countP_pos_iff.mp this
    exact ⟨i, hi, by simpa using hd⟩
  obtain ⟨ilon, hilon, htlon⟩ : ∃ i ∈ ds.d_oBandSpec, i.type = dim_type.lon := by
    have : 0 < occurrences dim_type.lon ds.d_oBandSpec := by omega
    obtain ⟨i, hi, hd⟩ := List.countP_pos_iff.mp this
    exact ⟨i, hi, by simpa using hd⟩
  obtain ⟨klat, hklat⟩ := List.mem_iff_getElem?.mp hilat
  obtain ⟨klon, hklon⟩ := List.mem_iff_getElem?.mp hilon
  have hlatidx := var_loop_lat_found ds.d_oBandSpec ⟨0, -1, -1, 1⟩ klat ilat hklat htlat hlat
  have hlonidx := var_loop_lon_found ds.d_oBandSpec ⟨0, -1, -1, 1⟩ klon ilon hklon htlon hlon
  simp only [Int.zero_add] at hlatidx hlonidx
  have hklat_lt : klat < ds.d_oBandSpec.length := (List.getElem?_eq_some_iff.mp hklat).1
  have hklon_lt : klon < ds.d_oBandSpec.length := (List.getElem?_eq_some_iff.mp hklon).1
  have hkne : klat ≠ klon := by
    intro e
    rw [e, hklon] at hklat
    simp only [Option.some.injEq] at hklat
    rw [hklat, htlat] at htlon
    cases htlon
  refine ⟨hlen, hnou, hlat, hlon, ?_, ?_, ?_, ?_, ?_, ?_, ?_⟩
  · rw [hlatidx, hlonidx]; exact_mod_cast hkne
  · rw [hlatidx]; omega
  · rw [hlatidx]; omega
  · rw [hlonidx]; omega
  · rw [hlonidx]; omega
  · intro poA hdims
    rw [hlatidx, hlonidx]
    have h1 : klat < poA.dims.length := by omega
    have h2 : klon < poA.dims.length := by omega
    exact ⟨⟨poA.dims[klat], by simp [dimension_size, List.getElem?_eq_getElem h1]⟩,
      ⟨poA.dims[klon], by simp [dimension_size, List.getElem?_eq_getElem h2]⟩⟩
  · intro x y xs ys b msg hbad
    by_cases hb : x + xs - 1 > ds.nRasterXSize ∨ y + ys - 1 > ds.nRasterYSize
    · unfold BuildConstraint at hbad
      rw [if_pos hb] at hbad
      cases hbad
    · rw [BuildConstraint_ok ds x y xs ys b hb hnou] at hbad
      cases hbad

/-- The sequence Range(0,2), Latitude, Longitude is accepted for the rank 3. -/
theorem verify_layer_spec_accepts_witness :
    verify_layer_spec ⟨[], ['V'], [], [⟨dim_type.range, 0, 2⟩, ⟨dim_type.lat, 0, 0⟩,
        ⟨dim_type.lon, 0, 0⟩], 3, 0, 512, 256, GDALDataType.GDT_Byte, 0, 0, 0, 0, []⟩ = .ok () ∧
      (var_loop [⟨dim_type.range, 0, 2⟩, ⟨dim_type.lat, 0, 0⟩, ⟨dim_type.lon, 0, 0⟩]
        ⟨0, -1, -1, 1⟩).lat_index
        ≠ (var_loop [⟨dim_type.range, 0, 2⟩, ⟨dim_type.lat, 0, 0⟩, ⟨dim_type.lon, 0, 0⟩]
          ⟨0, -1, -1, 1⟩).lon_index :=
  ⟨by rfl,
   (verify_layer_spec_accepts ⟨[], ['V'], [], [⟨dim_type.range, 0, 2⟩, ⟨dim_type.lat, 0, 0⟩,
      ⟨dim_type.lon, 0, 0⟩], 3, 0, 512, 256, GDALDataType.GDT_Byte, 0, 0, 0, 0, []⟩
      (by rfl)).2.2.2.2.1⟩

/-- C26. For a specifier Range(start, stop) with `start ≤ stop` that is the one
Range specifier of the sequence, the band count that the loop of `get_var_info`
leaves is `stop - start + 1`, which is at least 1; for every band number `b`
the loop of `BuildConstraint` writes the decimal text of the single index
`start + b - 1` between the brackets of that specifier, and for `b` from 1 to
the band count that index lies between `start` and `stop`; band 1 gives
`start`, the last band gives `stop`, and two different band numbers give two
different indices. -/
theorem range_index_in_range (spec : List dim_spec) (r : dim_spec) (hr : r ∈ spec)
    (ht : r.type = dim_type.range) (hone : occurrences dim_type.range spec ≤ 1)
    (hs : r.start ≤ r.stop) :
    (∀ st : VarLoop, (var_loop spec st).d_iNumBands = r.stop - r.start + 1) ∧
    (∀ st : VarLoop, 1 ≤ (var_loop spec st).d_iNumBands) ∧
    (∀ (be : Str) (x y xs ys b : Int) (rest : List dim_spec) (oss : Str),
      constraint_loop be x y xs ys b (r :: rest) oss
        = constraint_loop be x y xs ys b rest
            (oss ++ ['['] ++ int_text (r.start + b - 1) ++ [']'])) ∧
    (∀ x y xs ys b : Int, group_body x y xs ys b r = int_text (r.start + b - 1)) ∧
    (∀ (st : VarLoop) (b : Int), 1 ≤ b → b ≤ (var_loop spec st).d_iNumBands →
      r.start ≤ r.start + b - 1 ∧ r.start + b - 1 ≤ r.stop) ∧
    (∀ x y xs ys : Int, group_body x y xs ys 1 r = int_text r.start) ∧
    (∀ (st : VarLoop) (x y xs ys : Int),
      group_body x y xs ys (var_loop spec st).d_iNumBands r = int_text r.stop) ∧
    (∀ b1 b2 : Int, b1 ≠ b2 → r.start + b1 - 1 ≠ r.start + b2 - 1) := by
  have hn : ∀ st : VarLoop, (var_loop spec st).d_iNumBands = r.stop - r.start + 1 :=
    fun st => var_loop_bands_range spec st r hr ht hone
  refine ⟨hn, ?_, ?_, ?_, ?_, ?_, ?_, ?_⟩
  · intro st
    rw [hn st]
    omega
  · intro be x y xs ys b rest oss
    rw [constraint_loop.eq_2]
    simp only [ht]
  · intro x y xs ys b
    simp [group_body, ht]
  · intro st b h1 h2
    rw [hn st] at h2
    omega
  · intro x y xs ys
    simp [group_body, ht]
  · intro st x y xs ys
    rw [hn st]
    have e : r.start + (r.stop - r.start + 1) - 1 = r.stop := by omega
    simp [group_body, ht, e]
  · intro b1 b2 hne
    omega

/-- The sequence Range(10,12), Latitude, Longitude: three bands, and band 2
gives the index 11, between 10 and 12. -/
theorem range_index_in_range_witness :
    (var_loop [⟨dim_type.range, 10, 12⟩, ⟨dim_type.lat, 0, 0⟩, ⟨dim_type.lon, 0, 0⟩]
        ⟨0, -1, -1, 1⟩).d_iNumBands = 12 - 10 + 1 ∧
      (10 : Int) ≤ 10 + 2 - 1 ∧ (10 : Int) + 2 - 1 ≤ 12 :=
  ⟨(range_index_in_range
      [⟨dim_type.range, 10, 12⟩, ⟨dim_type.lat, 0, 0⟩, ⟨dim_type.lon, 0, 0⟩]
      ⟨dim_type.range, 10, 12⟩ (by decide) rfl (by decide) (by decide)).1 ⟨0, -1, -1, 1⟩,
   (range_index_in_range
      [⟨dim_type.range, 10, 12⟩, ⟨dim_type.lat, 0, 0⟩, ⟨dim_type.lon, 0, 0⟩]
      ⟨dim_type.range, 10, 12⟩ (by decide) rfl (by decide) (by decide)).2.2.2.2.1
      ⟨0, -1, -1, 1⟩ 2 (by decide) (by decide)⟩

/-! ### The resampling block stays inside its buffers -/

/-- The loop of `BuildConstraint` throws no exception of class `Error`. -/
theorem constraint_loop_no_Error (be : Str) (x y xs ys b : Int) (spec : List dim_spec) :
    ∀ (oss : Str) (msg : Msg),
      constraint_loop be x y xs ys b spec oss ≠ .error (Exn.Error msg) := by
  induction spec with
  | nil => intro oss msg h; simp [constraint_loop] at h
  | cons i rest ih =>
    intro oss msg
    rw [constraint_loop.eq_2]
    cases ht : i.type with
    | unknown => intro h; simp at h
    | index => exact ih _ msg
    | range => exact ih _ msg
    | lat => exact ih _ msg
    | lon => exact ih _ msg

/-- A request for which ` IRasterIO` makes a call has passed the window check. -/
theorem IRasterIO_calls_window (bits : GDALDataType → Int) (fl : ℚ → ℚ) (conn : AISConnect)
    (ds : DODSDataset) (band : DODSRasterBand)
    (nXOff nYOff nXSize nYSize nBufXSize nBufYSize : Int) (eBufType : GDALDataType)
    (nPixelSpace nLineSpace : Int)
    (h : ( IRasterIO bits fl conn ds band nXOff nYOff nXSize nYSize nBufXSize nBufYSize eBufType
      nPixelSpace nLineSpace).calls ≠ []) :
    ¬ (nXOff + nXSize > ds.nRasterXSize ∨ nYOff + nYSize > ds.nRasterYSize) := by
  intro hw
  unfold IRasterIO at h
  split_ifs at h <;> exact h rfl

/-- C28. The window check of `IRasterIO` refines the bounds check of
`BuildConstraint`.  A request for which `IRasterIO` makes any call has
`nXOff + nXSize` at most the raster width and `nYOff + nYSize` at most the
raster height; and for every request with offsets that are not negative and
sizes that are positive which satisfies these two inequalities,
`BuildConstraint` throws no `Error`, the Latitude group it writes is
`nYOff:nYSize+nYOff-1` with `0 ≤ nYOff ≤ nYSize+nYOff-1 ≤ height-1`, the
Longitude group is `nXOff:nXSize+nXOff-1` with
`0 ≤ nXOff ≤ nXSize+nXOff-1 ≤ width-1`, and on a sequence without Unknown
specifier the constraint is returned.  The same holds for the request
(0, 0, width, height) that `IReadBlock` makes for a band built by the
constructor, when the width and the height are positive. -/
theorem IRasterIO_window_refines_bounds :
    (∀ (bits : GDALDataType → Int) (fl : ℚ → ℚ) (conn : AISConnect) (ds : DODSDataset)
        (band : DODSRasterBand) (nXOff nYOff nXSize nYSize nBufXSize nBufYSize : Int)
        (eBufType : GDALDataType) (nPixelSpace nLineSpace : Int),
      ( IRasterIO bits fl conn ds band nXOff nYOff nXSize nYSize nBufXSize nBufYSize eBufType
          nPixelSpace nLineSpace).calls ≠ [] →
      nXOff + nXSize ≤ ds.nRasterXSize ∧ nYOff + nYSize ≤ ds.nRasterYSize) ∧
    (∀ (ds : DODSDataset) (nXOff nYOff nXSize nYSize b : Int),
      0 ≤ nXOff → 0 ≤ nYOff → 0 < nXSize → 0 < nYSize →
      ¬ (nXOff + nXSize > ds.nRasterXSize ∨ nYOff + nYSize > ds.nRasterYSize) →
      ¬ (nXOff + nXSize - 1 > ds.nRasterXSize ∨ nYOff + nYSize - 1 > ds.nRasterYSize) ∧
      (∀ msg, BuildConstraint ds nXOff nYOff nXSize nYSize b ≠ .error (Exn.Error msg)) ∧
      (∀ i : dim_spec, i.type = dim_type.lat →
        group_body nXOff nYOff nXSize nYSize b i
          = int_text nYOff ++ [':'] ++ int_text (nYSize + nYOff - 1)) ∧
      (0 ≤ nYOff ∧ nYOff ≤ nYSize + nYOff - 1 ∧ nYSize + nYOff - 1 ≤ ds.nRasterYSize - 1) ∧
      (∀ i : dim_spec, i.type = dim_type.lon →
        group_body nXOff nYOff nXSize nYSize b i
          = int_text nXOff ++ [':'] ++ int_text (nXSize + nXOff - 1)) ∧
      (0 ≤ nXOff ∧ nXOff ≤ nXSize + nXOff - 1 ∧ nXSize + nXOff - 1 ≤ ds.nRasterXSize - 1) ∧
      ((∀ i ∈ ds.d_oBandSpec, i.type ≠ dim_type.unknown) →
        BuildConstraint ds nXOff nYOff nXSize nYSize b
          = .ok (ds.d_oVarName
              ++ bracket_groups (ds.d_oBandSpec.map (group_body nXOff nYOff nXSize nYSize b))))) ∧
    (∀ (conn : AISConnect) (ds : DODSDataset) (band_num : Int),
      0 < ds.nRasterXSize → 0 < ds.nRasterYSize →
      (IReadBlock conn ds (DODSRasterBand.create ds band_num) 0 0).2
        = [Event.GetRaster 0 0 ds.nRasterXSize ds.nRasterYSize band_num Buffer.pBlock] ∧
      ¬ (0 + ds.nRasterXSize > ds.nRasterXSize ∨ 0 + ds.nRasterYSize > ds.nRasterYSize) ∧
      (∀ msg, BuildConstraint ds 0 0 ds.nRasterXSize ds.nRasterYSize band_num
        ≠ .error (Exn.Error msg)) ∧
      (∀ i : dim_spec, i.type = dim_type.lat →
        group_body 0 0 ds.nRasterXSize ds.nRasterYSize band_num i
          = int_text 0 ++ [':'] ++ int_text (ds.nRasterYSize + 0 - 1)) ∧
      ((0 : Int) ≤ ds.nRasterYSize + 0 - 1 ∧ ds.nRasterYSize + 0 - 1 ≤ ds.nRasterYSize - 1) ∧
      (∀ i : dim_spec, i.type = dim_type.lon →
        group_body 0 0 ds.nRasterXSize ds.nRasterYSize band_num i
          = int_text 0 ++ [':'] ++ int_text (ds.nRasterXSize + 0 - 1)) ∧
      ((0 : Int) ≤ ds.nRasterXSize + 0 - 1 ∧ ds.nRasterXSize + 0 - 1 ≤ ds.nRasterXSize - 1)) := by
  have key : ∀ (ds : DODSDataset) (x y xs ys b : Int),
      ¬ (x + xs - 1 > ds.nRasterXSize ∨ y + ys - 1 > ds.nRasterYSize) →
      ∀ msg, BuildConstraint ds x y xs ys b ≠ .error (Exn.Error msg) := by
    intro ds x y xs ys b hb msg
    unfold BuildConstraint
    rw [if_neg hb]
    exact constraint_loop_no_Error _ _ _ _ _ _ _ _ msg
  refine ⟨?_, ?_, ?_⟩
  · intro bits fl conn ds band nXOff nYOff nXSize nYSize nBufXSize nBufYSize eBufType
      nPixelSpace nLineSpace h
    have := IRasterIO_calls_window bits fl conn ds band nXOff nYOff nXSize nYSize nBufXSize
      nBufYSize eBufType nPixelSpace nLineSpace h
    omega
  · intro ds x y xs ys b hx hy hxs hys hw
    have hb : ¬ (x + xs - 1 > ds.nRasterXSize ∨ y + ys - 1 > ds.nRasterYSize) := by omega
    refine ⟨hb, key ds x y xs ys b hb, ?_, by omega, ?_, by omega, ?_⟩
    · intro i ht
      simp [group_body, ht]
    · intro i ht
      simp [group_body, ht]
    · intro hu
      exact BuildConstraint_ok ds x y xs ys b hb hu
  · intro conn ds band_num hw hh
    have hb : ¬ ((0 : Int) + ds.nRasterXSize - 1 > ds.nRasterXSize ∨
        (0 : Int) + ds.nRasterYSize - 1 > ds.nRasterYSize) := by omega
    have h0 : ¬ ((0 : Int) ≠ 0 ∨ (0 : Int) ≠ 0) := by simp
    refine ⟨?_, by omega, key ds 0 0 _ _ band_num hb, ?_, by omega, ?_, by omega⟩
    · unfold IReadBlock
      rw [if_neg h0]
      simp only [DODSRasterBand.create]
      cases GetRaster conn ds 0 0 ds.nRasterXSize ds.nRasterYSize band_num <;> rfl
    · intro i ht
      simp [group_body, ht]
    · intro i ht
      simp [group_body, ht]

/-- The window of 4 columns from column 508 and 2 lines from line 254 of a 512
by 256 raster passes the check of `IRasterIO`; the constraint is
`V[254:255][508:511]`. -/
theorem IRasterIO_window_refines_bounds_witness :
    BuildConstraint (raster_dataset ['V'] [⟨dim_type.lat, 0, 0⟩, ⟨dim_type.lon, 0, 0⟩] 512 256)
        508 254 4 2 1 = .ok ("V[254:255][508:511]".toList) :=
  (IRasterIO_window_refines_bounds.2.1
    (raster_dataset ['V'] [⟨dim_type.lat, 0, 0⟩, ⟨dim_type.lon, 0, 0⟩] 512 256)
    508 254 4 2 1 (by decide) (by decide) (by decide) (by decide) (by decide)).2.2.2.2.2.2
    (by decide)

/-- C29. With the fallback of `Open` in the four corner members (lower left
longitude 0, lower left latitude the raster height, upper right longitude the
raster width, upper right latitude 0) and a raster of positive width and
height, `GetGeoTransform` over exact arithmetic writes the six values 0, 1, 0,
0, 0 and 1: the sixth value is +1.  These are the values of the dataset that
the geo-referencing step of `Open` leaves when `get_geo_info` throws.  With
them, the affine map `(g0 + col*g1 + line*g2, g3 + col*g4 + line*g5)` sends the
pixel `(col, line)` to `(col, line)`. -/
theorem GetGeoTransform_fallback :
    (∀ (ds : DODSDataset) (wkt : Str), 0 < ds.nRasterXSize → 0 < ds.nRasterYSize →
      GetGeoTransform exact
          (set_geo ds 0 (ds.nRasterYSize : ℚ) (ds.nRasterXSize : ℚ) 0 wkt)
        = [0, 1, 0, 0, 0, 1]) ∧
    (∀ (lib : Library) (das : AttrTable) (ds : DODSDataset) (e : Exn),
      (get_geo_info lib das ds).2 = .error e →
      0 < ds.nRasterXSize → 0 < ds.nRasterYSize →
      ∃ poDS, geo_step lib das ds = some poDS ∧
        GetGeoTransform exact poDS = [0, 1, 0, 0, 0, 1]) ∧
    (∀ (ds : DODSDataset) (wkt : Str) (g0 g1 g2 g3 g4 g5 col line : ℚ),
      0 < ds.nRasterXSize → 0 < ds.nRasterYSize →
      GetGeoTransform exact
          (set_geo ds 0 (ds.nRasterYSize : ℚ) (ds.nRasterXSize : ℚ) 0 wkt)
        = [g0, g1, g2, g3, g4, g5] →
      g0 + col * g1 + line * g2 = col ∧ g3 + col * g4 + line * g5 = line) := by
  have main : ∀ (ds : DODSDataset) (wkt : Str), 0 < ds.nRasterXSize → 0 < ds.nRasterYSize →
      GetGeoTransform exact
          (set_geo ds 0 (ds.nRasterYSize : ℚ) (ds.nRasterXSize : ℚ) 0 wkt)
        = [0, 1, 0, 0, 0, 1] := by
    intro ds wkt hw hh
    have hw2 : (ds.nRasterXSize : ℚ) ≠ 0 := by
      have : (0 : ℚ) < (ds.nRasterXSize : ℚ) := by exact_mod_cast hw
      exact ne_of_gt this
    have hh2 : (ds.nRasterYSize : ℚ) ≠ 0 := by
      have : (0 : ℚ) < (ds.nRasterYSize : ℚ) := by exact_mod_cast hh
      exact ne_of_gt this
    simp only [GetGeoTransform, exact, set_geo]
    simp [hw2, hh2]
  refine ⟨main, ?_, ?_⟩
  · intro lib das ds e he hw hh
    obtain ⟨hx, hy, -⟩ := get_geo_info_frame lib das ds
    refine ⟨_, geo_step_fallback lib das ds e he, ?_⟩
    exact main _ _ (by rw [hx]; exact hw) (by rw [hy]; exact hh)
  · intro ds wkt g0 g1 g2 g3 g4 g5 col line hw hh hg
    rw [main ds wkt hw hh] at hg
    simp only [List.cons.injEq, and_true] at hg
    obtain ⟨h0, h1, h2, h3, h4, h5⟩ := hg
    subst h0 h1 h2 h3 h4 h5
    constructor <;> ring

/-- The fallback on a raster of 512 by 256 pixels. -/
theorem GetGeoTransform_fallback_witness :
    GetGeoTransform exact
        (set_geo (raster_dataset ['V'] [⟨dim_type.lat, 0, 0⟩, ⟨dim_type.lon, 0, 0⟩] 512 256)
          0 (((raster_dataset ['V'] [⟨dim_type.lat, 0, 0⟩, ⟨dim_type.lon, 0, 0⟩] 512
            256).nRasterYSize : Int) : ℚ)
          (((raster_dataset ['V'] [⟨dim_type.lat, 0, 0⟩, ⟨dim_type.lon, 0, 0⟩] 512
            256).nRasterXSize : Int) : ℚ) 0 [])
      = [0, 1, 0, 0, 0, 1] :=
  GetGeoTransform_fallback.1
    (raster_dataset ['V'] [⟨dim_type.lat, 0, 0⟩, ⟨dim_type.lon, 0, 0⟩] 512 256) []
    (by decide) (by decide)

end DODS
